import Mathlib

/-!
Verification of the StressVision decision core: the stress-index computation
(core/services/stress_calculator.py), alert generation with cooldown
suppression (core/services/alert_manager.py), the alert status lifecycle
(core/database/database.py), face matching and enrollment
(core/detectors/face_recognizer.py), and periodic report generation
(core/services/report_generator.py).

Modelling conventions:
* Python floats are modelled as rationals; similarity values of the face
  recognizer, which involve square roots, are modelled as real numbers.
* Timestamps are rationals measured in seconds.
* External collaborators (the perception pipeline, SQLite, the filesystem)
  appear as explicit inputs: database query results are computed from a list
  modelling the stored rows, and the success of a database or file write is an
  explicit input standing for the exception-free path of the corresponding
  try/except block.
* Python round(x, 2) is modelled as round-half-to-even on exact rationals.
-/

namespace StressVision

/-- The fixed negative-emotion label set NEGATIVE_EMOTIONS of
core/utils/types.py. -/
def NEGATIVE_EMOTIONS : List String :=
  ["angry", "fear", "sad", "disgust", "stress_high", "fatigue"]

/-- Round a rational to the nearest integer, ties to even; this models the
rounding mode of Python round on an exact value. -/
def roundHalfEven (q : ℚ) : ℤ :=
  if q - ⌊q⌋ < 1/2 then ⌊q⌋
  else if 1/2 < q - ⌊q⌋ then ⌊q⌋ + 1
  else if ⌊q⌋ % 2 = 0 then ⌊q⌋ else ⌊q⌋ + 1

/-- Python round(x, 2) on an exact rational value. -/
def round2 (q : ℚ) : ℚ := (roundHalfEven (q * 100) : ℚ) / 100

theorem floor_le_roundHalfEven (q : ℚ) : ⌊q⌋ ≤ roundHalfEven q := by
  simp only [roundHalfEven]; split_ifs <;> omega

theorem roundHalfEven_le_floor_add_one (q : ℚ) : roundHalfEven q ≤ ⌊q⌋ + 1 := by
  simp only [roundHalfEven]; split_ifs <;> omega

theorem roundHalfEven_mono {x y : ℚ} (h : x ≤ y) : roundHalfEven x ≤ roundHalfEven y := by
  have hf : (⌊x⌋ : ℤ) ≤ ⌊y⌋ := Int.floor_le_floor h
  rcases eq_or_lt_of_le hf with heq | hlt
  · have hr : x - ⌊x⌋ ≤ y - ⌊y⌋ := by
      rw [← heq]
      have : (⌊x⌋ : ℚ) = ((⌊x⌋ : ℤ) : ℚ) := rfl
      linarith
    simp only [roundHalfEven]
    rw [← heq]
    split_ifs <;> first | omega | linarith
  · have h1 := roundHalfEven_le_floor_add_one x
    have h2 := floor_le_roundHalfEven y
    omega

theorem round2_mono {x y : ℚ} (h : x ≤ y) : round2 x ≤ round2 y := by
  have h1 : roundHalfEven (x * 100) ≤ roundHalfEven (y * 100) :=
    roundHalfEven_mono (by linarith)
  have h2 : ((roundHalfEven (x * 100) : ℤ) : ℚ) ≤ ((roundHalfEven (y * 100) : ℤ) : ℚ) := by
    exact_mod_cast h1
  simp only [round2]
  linarith

theorem round2_zero : round2 0 = 0 := by
  norm_num [round2, roundHalfEven]

theorem round2_hundred : round2 100 = 100 := by
  have h : ((100 : ℚ) * 100) = ((10000 : ℤ) : ℚ) := by norm_num
  norm_num [round2, roundHalfEven, h, Int.floor_intCast]

theorem round2_range {q : ℚ} (h0 : 0 ≤ q) (h1 : q ≤ 100) :
    0 ≤ round2 q ∧ round2 q ≤ 100 := by
  constructor
  · have := round2_mono h0; rw [round2_zero] at this; exact this
  · have := round2_mono h1; rw [round2_hundred] at this; exact this

/-! ## Association-list helpers

Python dict operations used by the source (lookup, insert-or-replace,
membership), modelled on insertion-ordered association lists. -/

/-- Dict lookup: first binding of the key, if any. -/
def lookupKey {α : Type} : List (String × α) → String → Option α
  | [], _ => none
  | p :: ps, k => if p.1 = k then some p.2 else lookupKey ps k

/-- Dict assignment d[k] = v: replace the existing binding in place, else
append a new binding at the end (insertion order). -/
def setKey {α : Type} : List (String × α) → String → α → List (String × α)
  | [], k, v => [(k, v)]
  | p :: ps, k, v => if p.1 = k then (k, v) :: ps else p :: setKey ps k v

theorem lookupKey_setKey_self {α : Type} (l : List (String × α)) (k : String) (v : α) :
    lookupKey (setKey l k v) k = some v := by
  induction l with
  | nil => simp [setKey, lookupKey]
  | cons p ps ih =>
    by_cases h : p.1 = k
    · simp [setKey, lookupKey, h]
    · simp [setKey, lookupKey, h, ih]

theorem lookupKey_setKey_ne {α : Type} (l : List (String × α)) (k k' : String) (v : α)
    (h : k' ≠ k) : lookupKey (setKey l k v) k' = lookupKey l k' := by
  have hk : k ≠ k' := Ne.symm h
  induction l with
  | nil => simp [setKey, lookupKey, hk]
  | cons p ps ih =>
    by_cases hp : p.1 = k
    · simp [setKey, lookupKey, hp, hk]
    · simp [setKey, lookupKey, hp, ih]

/-! ## StressCalculator (core/services/stress_calculator.py) -/

/-- One history entry, as appended by StressCalculator.add_emotion. -/
structure EmotionEntry where
  emotion : String
  timestamp : ℚ
  confidence : ℚ
deriving DecidableEq

/-- A stress-crossing event recorded by check_stress_threshold. -/
structure StressEvent where
  timestamp : ℚ
  stressIndex : ℚ
  emotion : String
  personCount : Nat
  employeeId : Option String
deriving DecidableEq

/-- The mutable state of a StressCalculator instance. -/
structure StressCalc where
  maxHistory : Nat
  windowSize : Nat
  employeeHistories : List (String × List EmotionEntry)
  globalHistory : List EmotionEntry
  stressEvents : List StressEvent
deriving DecidableEq

/-- A freshly constructed StressCalculator(max_history, window_size). -/
def StressCalc.init (maxHistory windowSize : Nat) : StressCalc :=
  ⟨maxHistory, windowSize, [], [], []⟩

/-- deque(maxlen = maxLen) append: keep the most recent maxLen entries. -/
def pushBounded (maxLen : Nat) (h : List EmotionEntry) (e : EmotionEntry) : List EmotionEntry :=
  let h2 := h ++ [e]
  h2.drop (h2.length - maxLen)

/-- StressCalculator.add_emotion: append to the global history and, when a
non-empty employee id is given, to that employee history (creating it on
first use). An empty-string id is falsy in Python and is treated as absent. -/
def addEmotion (sc : StressCalc) (emotion : String) (employeeId : Option String)
    (confidence : ℚ) (now : ℚ) : StressCalc :=
  let entry : EmotionEntry := ⟨emotion, now, confidence⟩
  let g := pushBounded sc.maxHistory sc.globalHistory entry
  let eh :=
    match employeeId with
    | none => sc.employeeHistories
    | some e =>
      if e = "" then sc.employeeHistories
      else
        match lookupKey sc.employeeHistories e with
        | some h => setKey sc.employeeHistories e (pushBounded sc.maxHistory h entry)
        | none => setKey sc.employeeHistories e (pushBounded sc.maxHistory [] entry)
  { sc with globalHistory := g, employeeHistories := eh }

/-- The history selection shared by calculate_stress_index,
check_stress_threshold, get_emotion_distribution and get_metrics: the employee
history when the id is truthy and present, otherwise the global history. -/
def selectHistory (sc : StressCalc) (employeeId : Option String) : List EmotionEntry :=
  match employeeId with
  | none => sc.globalHistory
  | some e =>
    if e = "" then sc.globalHistory
    else
      match lookupKey sc.employeeHistories e with
      | some h => h
      | none => sc.globalHistory

/-- The effective window size: the argument unless it is absent or zero
(both falsy in Python), in which case self.window_size is used. -/
def effectiveWindow (sc : StressCalc) (window : Option Nat) : Nat :=
  match window with
  | some w => if w = 0 then sc.windowSize else w
  | none => sc.windowSize

/-- history[-w:]: the most recent w entries; for w = 0 Python slicing yields
the whole list. -/
def recentWindow (h : List EmotionEntry) (w : Nat) : List EmotionEntry :=
  if w = 0 then h else h.drop (h.length - w)

/-- Membership in the fixed negative-label set. -/
def isNegative (e : String) : Bool := NEGATIVE_EMOTIONS.contains e

/-- StressCalculator.calculate_stress_index. -/
def calculateStressIndex (sc : StressCalc) (employeeId : Option String)
    (window : Option Nat) : ℚ :=
  let w := effectiveWindow sc window
  let history := selectHistory sc employeeId
  if history.length < 5 then 0
  else
    let recent := recentWindow history w
    let negativeCount := recent.countP (fun e => isNegative e.emotion)
    let total := recent.length
    if total = 0 then 0
    else round2 ((negativeCount : ℚ) / total * 100)

/-- StressCalculator.check_stress_threshold: recompute the index; past the
threshold, record a stress event and return true, else return false. -/
def checkStressThreshold (sc : StressCalc) (threshold : ℚ) (employeeId : Option String)
    (now : ℚ) : Bool × StressCalc :=
  let si := calculateStressIndex sc employeeId none
  if si > threshold then
    let history := selectHistory sc employeeId
    let lastEmotion := match history.getLast? with
      | some e => e.emotion
      | none => "unknown"
    let event : StressEvent := ⟨now, si, lastEmotion, 1, employeeId⟩
    (true, { sc with stressEvents := sc.stressEvents ++ [event] })
  else (false, sc)

/-- distribution[emotion] = distribution.get(emotion, 0) + 1 on an
insertion-ordered dict. -/
def bumpCount (d : List (String × Nat)) (k : String) : List (String × Nat) :=
  match lookupKey d k with
  | some _ => d.map (fun p => if p.1 = k then (p.1, p.2 + 1) else p)
  | none => d ++ [(k, 1)]

/-- StressCalculator.get_emotion_distribution: count emotions of entries whose
timestamp is at least now - hours * 3600. -/
def getEmotionDistribution (sc : StressCalc) (employeeId : Option String)
    (now : ℚ) (hours : ℚ) : List (String × Nat) :=
  let cutoff := now - hours * 3600
  let history := selectHistory sc employeeId
  let recent := history.filter (fun e => cutoff ≤ e.timestamp)
  recent.foldl (fun d e => bumpCount d e.emotion) []

/-- The dict returned by StressCalculator.get_metrics. -/
structure Metrics where
  stressIndex : ℚ
  totalDetections : Nat
  negativeCount : Nat
  negativePercentage : ℚ
  predominantEmotion : String
  emotionDistribution : List (String × Nat)
  stressEventsCount : Nat
deriving DecidableEq

/-- Python max(d.items(), key = value) on an insertion-ordered dict: the first
binding with the maximal count ("neutral" for an empty dict). -/
def predominantOf (d : List (String × Nat)) : String :=
  match d with
  | [] => "neutral"
  | x :: xs => (xs.foldl (fun best p => if p.2 > best.2 then p else best) x).1

/-- StressCalculator.get_metrics. -/
def getMetrics (sc : StressCalc) (employeeId : Option String) (now : ℚ) : Metrics :=
  let si := calculateStressIndex sc employeeId none
  let distribution := getEmotionDistribution sc employeeId now 24
  let total := (distribution.map (fun p => p.2)).sum
  let negative := (NEGATIVE_EMOTIONS.map (fun e => (lookupKey distribution e).getD 0)).sum
  { stressIndex := si
    totalDetections := total
    negativeCount := negative
    negativePercentage := if total > 0 then (negative : ℚ) / total * 100 else 0
    predominantEmotion := predominantOf distribution
    emotionDistribution := distribution
    stressEventsCount :=
      (sc.stressEvents.filter
        (fun ev => decide (ev.employeeId = employeeId ∨ employeeId = none))).length }

/-! ## Database rows (core/database/database.py, core/utils/types.py)

DetectionEvent rows carry more columns in the source (track id, bounding box,
probabilities, processing time); only the columns read by the verified
services are modelled. The timestamp, optional in the dataclass, is always
assigned on insert, so queried rows carry one. -/

/-- A stored detection_events row, restricted to the columns the services
read. -/
structure DetectionEvent where
  detectionId : Option Nat
  sessionId : Option String
  employeeId : Option String
  timestamp : ℚ
  emotion : Option String
  confidence : ℚ
  stressLevel : Option ℚ
deriving DecidableEq

/-- The Alert dataclass of core/utils/types.py. -/
structure Alert where
  alertId : Nat
  employeeId : Option String
  alertType : String
  severity : String
  stressLevel : ℚ
  timestamp : ℚ
  status : String
  message : String
  resolvedAt : Option ℚ
  resolvedBy : Option String
deriving DecidableEq

/-- Database.get_detections: filter by employee (when truthy), start and end
time, capped at the row limit. The ORDER BY timestamp DESC of the source is
not modelled: every verified property is insensitive to row order and the
concrete instances stay below the limit. -/
def getDetections (store : List DetectionEvent) (employeeId : Option String)
    (startTime endTime : Option ℚ) (limit : Nat) : List DetectionEvent :=
  (store.filter (fun d =>
    (match employeeId with
     | some e => if e = "" then true else decide (d.employeeId = some e)
     | none => true)
    && (match startTime with
        | some s => decide (s ≤ d.timestamp)
        | none => true)
    && (match endTime with
        | some e => decide (d.timestamp ≤ e)
        | none => true))).take limit

/-- Database.update_alert_status: unconditionally set status, resolved_at and
resolved_by on the matching row; resolved_at is now for a resolved status and
NULL otherwise. dbOk = false is the exception path (returns false, no write). -/
def updateAlertStatus (alerts : List Alert) (alertId : Nat) (status : String)
    (resolvedBy : Option String) (now : ℚ) (dbOk : Bool) : Bool × List Alert :=
  if dbOk then
    let resolvedAt := if status = "resolved" then some now else none
    (true, alerts.map (fun a =>
      if a.alertId = alertId then
        { a with status := status, resolvedAt := resolvedAt, resolvedBy := resolvedBy }
      else a))
  else (false, alerts)

/-- AlertManager.acknowledge_alert. -/
def acknowledgeAlert (alerts : List Alert) (alertId : Nat) (userId : String)
    (now : ℚ) (dbOk : Bool) : Bool × List Alert :=
  updateAlertStatus alerts alertId "acknowledged" (some userId) now dbOk

/-- AlertManager.resolve_alert. -/
def resolveAlert (alerts : List Alert) (alertId : Nat) (userId : String)
    (now : ℚ) (dbOk : Bool) : Bool × List Alert :=
  updateAlertStatus alerts alertId "resolved" (some userId) now dbOk

/-! ## AlertManager (core/services/alert_manager.py) -/

/-- AlertManager configuration (alert_threshold, alert_window_minutes,
cooldown_minutes). -/
structure AlertConfig where
  alertThreshold : Nat
  alertWindowMinutes : ℚ
  cooldownMinutes : ℚ
deriving DecidableEq

/-- The Python expression employee_id or "global" used to build cooldown keys
and messages: an absent or empty id is falsy and yields "global". -/
def scopeSuffix (employeeId : Option String) : String :=
  match employeeId with
  | some e => if e = "" then "global" else e
  | none => "global"

/-- AlertManager._can_generate_alert: eligible when the key has no recorded
fire, or when at least cooldown_minutes have elapsed since it. -/
def canGenerateAlert (lastAlertTimes : List (String × ℚ)) (alertKey : String)
    (now cooldownMinutes : ℚ) : Bool :=
  match lookupKey lastAlertTimes alertKey with
  | none => true
  | some lastTime => decide ((now - lastTime) / 60 ≥ cooldownMinutes)

/-- The filter d.stress_level and d.stress_level > 0.7 (a zero stress level is
falsy, and also fails the comparison). -/
def isHighStress (d : DetectionEvent) : Bool :=
  match d.stressLevel with
  | some s => decide (s > 7/10)
  | none => false

/-- AlertManager._create_high_stress_alert. -/
def createHighStressAlert (cfg : AlertConfig) (employeeId : Option String)
    (stressDetections : List DetectionEvent) (now : ℚ) : Alert :=
  let truthyLevels := stressDetections.filterMap (fun d =>
    match d.stressLevel with
    | some s => if s = 0 then none else some s
    | none => none)
  let avgStress := truthyLevels.sum / stressDetections.length
  let severity := if avgStress > 4/5 then "high"
    else if avgStress > 3/5 then "medium" else "low"
  let message :=
    match employeeId with
    | some e =>
      if e = "" then
        "Se detectaron " ++ toString stressDetections.length
          ++ " eventos de estrés alto en " ++ toString cfg.alertWindowMinutes ++ " minutos"
      else "Empleado " ++ e ++ " muestra niveles altos de estrés prolongado"
    | none =>
      "Se detectaron " ++ toString stressDetections.length
        ++ " eventos de estrés alto en " ++ toString cfg.alertWindowMinutes ++ " minutos"
  { alertId := 0, employeeId := employeeId, alertType := "high_stress_prolonged"
    severity := severity, stressLevel := avgStress, timestamp := now
    status := "pending", message := message, resolvedAt := none, resolvedBy := none }

/-- The message of AlertManager._check_fatigue. -/
def fatigueMessage (employeeId : Option String) : String :=
  match employeeId with
  | some e =>
    if e = "" then "Se detectó fatiga en múltiples personas"
    else "Se detectó fatiga en empleado " ++ e
  | none => "Se detectó fatiga en múltiples personas"

/-- AlertManager._check_fatigue: read the one-hour emotion distribution from
the stress calculator; on the fatigue condition and an elapsed cooldown,
persist a fixed medium alert. writeResult is the return of db.add_alert; a
truthy row id records the cooldown fire and returns the alert. -/
def checkFatigue (cfg : AlertConfig) (sc : StressCalc)
    (lastAlertTimes : List (String × ℚ)) (employeeId : Option String) (now : ℚ)
    (writeResult : Option Nat) : Option Alert × List (String × ℚ) :=
  let distribution := getEmotionDistribution sc employeeId now 1
  let fatigueCount := (lookupKey distribution "fatigue").getD 0
  let neutralCount := (lookupKey distribution "neutral").getD 0
  if fatigueCount ≥ 15 ∨ fatigueCount + neutralCount ≥ 20 then
    let alertKey := "fatigue_" ++ scopeSuffix employeeId
    if canGenerateAlert lastAlertTimes alertKey now cfg.cooldownMinutes then
      let alert : Alert :=
        { alertId := 0, employeeId := employeeId, alertType := "fatigue_detected"
          severity := "medium", stressLevel := 1/2, timestamp := now
          status := "pending", message := fatigueMessage employeeId
          resolvedAt := none, resolvedBy := none }
      match writeResult with
      | some i =>
        if i ≠ 0 then (some { alert with alertId := i }, setKey lastAlertTimes alertKey now)
        else (none, lastAlertTimes)
      | none => (none, lastAlertTimes)
    else (none, lastAlertTimes)
  else (none, lastAlertTimes)

/-- The high-stress block of check_and_generate_alerts (lines 72 to 88): past
the threshold and with an elapsed cooldown, persist the alert; a truthy row id
appends it to the result and records the cooldown fire. -/
def highStressPhase (cfg : AlertConfig) (lastAlertTimes : List (String × ℚ))
    (employeeId : Option String) (now : ℚ) (stressDetections : List DetectionEvent)
    (writeResult : Option Nat) : List Alert × List (String × ℚ) :=
  if stressDetections.length ≥ cfg.alertThreshold then
    let alertKey := "high_stress_" ++ scopeSuffix employeeId
    if canGenerateAlert lastAlertTimes alertKey now cfg.cooldownMinutes then
      let alert := createHighStressAlert cfg employeeId stressDetections now
      match writeResult with
      | some i =>
        if i ≠ 0 then ([{ alert with alertId := i }], setKey lastAlertTimes alertKey now)
        else ([], lastAlertTimes)
      | none => ([], lastAlertTimes)
    else ([], lastAlertTimes)
  else ([], lastAlertTimes)

/-- AlertManager.check_and_generate_alerts: query the detections of the
trailing window, run the high-stress block, then the fatigue check on the
updated cooldown map. hsWriteResult and ftWriteResult are the db.add_alert
returns for the two possible writes. -/
def checkAndGenerateAlerts (cfg : AlertConfig) (store : List DetectionEvent)
    (sc : StressCalc) (lastAlertTimes : List (String × ℚ))
    (employeeId : Option String) (now : ℚ)
    (hsWriteResult ftWriteResult : Option Nat) : List Alert × List (String × ℚ) :=
  let windowStart := now - cfg.alertWindowMinutes * 60
  let detections := getDetections store employeeId (some windowStart) none 1000
  let stressDetections := detections.filter isHighStress
  let r1 := highStressPhase cfg lastAlertTimes employeeId now stressDetections hsWriteResult
  match checkFatigue cfg sc r1.2 employeeId now ftWriteResult with
  | (some a, times2) => (r1.1 ++ [a], times2)
  | (none, times2) => (r1.1, times2)

/-- One periodic evaluation tick: the scope argument together with the
collaborator responses observed at that tick (database rows, calculator
state, write results). -/
structure EvalCall where
  employeeId : Option String
  now : ℚ
  store : List DetectionEvent
  sc : StressCalc
  hsWriteResult : Option Nat
  ftWriteResult : Option Nat

/-- A sequence of check_and_generate_alerts calls threading the cooldown map,
collecting every generated alert. -/
def runEvaluations (cfg : AlertConfig) (lastAlertTimes : List (String × ℚ)) :
    List EvalCall → List Alert × List (String × ℚ)
  | [] => ([], lastAlertTimes)
  | c :: cs =>
    let r1 := checkAndGenerateAlerts cfg c.store c.sc lastAlertTimes c.employeeId c.now
      c.hsWriteResult c.ftWriteResult
    let r2 := runEvaluations cfg r1.2 cs
    (r1.1 ++ r2.1, r2.2)

/-- The cooldown-map key under which the engine records an alert of the given
type and scope (lines 74 and 158 of alert_manager.py). -/
def alertCooldownKey (a : Alert) : String :=
  (if a.alertType = "high_stress_prolonged" then "high_stress_" else "fatigue_")
    ++ scopeSuffix a.employeeId

theorem highStress_key_ne_fatigue_key (a b : String) :
    "high_stress_" ++ a ≠ "fatigue_" ++ b := by
  intro h
  have h2 := congrArg String.data h
  rw [String.data_append, String.data_append] at h2
  have hh : "high_stress_".data = 'h' :: "igh_stress_".data := rfl
  have hf : "fatigue_".data = 'f' :: "atigue_".data := rfl
  rw [hh, hf] at h2
  simp at h2

theorem canGenerateAlert_false_of_recent (st : List (String × ℚ)) (key : String)
    (now cd T : ℚ) (hkey : lookupKey st key = some T) (hcd : (now - T) / 60 < cd) :
    canGenerateAlert st key now cd = false := by
  simp only [canGenerateAlert, hkey, decide_eq_false_iff_not]
  exact not_le.mpr hcd

/-- Exhaustive shape of the high-stress block: either nothing happens and the
cooldown map is untouched, or the threshold and cooldown checks passed, the
write returned a truthy id, one alert is emitted and its key is set to now. -/
theorem highStressPhase_cases (cfg : AlertConfig) (st : List (String × ℚ))
    (e : Option String) (now : ℚ) (dets : List DetectionEvent) (hw : Option Nat) :
    highStressPhase cfg st e now dets hw = ([], st) ∨
    (cfg.alertThreshold ≤ dets.length ∧
      canGenerateAlert st ("high_stress_" ++ scopeSuffix e) now cfg.cooldownMinutes = true ∧
      ∃ i, hw = some i ∧ i ≠ 0 ∧
        highStressPhase cfg st e now dets hw =
          ([{ createHighStressAlert cfg e dets now with alertId := i }],
           setKey st ("high_stress_" ++ scopeSuffix e) now)) := by
  simp only [highStressPhase]
  split_ifs with h1 h2
  · cases hw with
    | none => left; rfl
    | some i =>
      by_cases hi : i ≠ 0
      · right
        refine ⟨h1, h2, i, rfl, hi, ?_⟩
        simp [hi]
      · left; simp [hi]
  · left
    cases hw with
    | none => rfl
    | some i => rfl
  · left; rfl

/-- Exhaustive shape of the fatigue check, mirroring highStressPhase_cases. -/
theorem checkFatigue_cases (cfg : AlertConfig) (sc : StressCalc)
    (st : List (String × ℚ)) (e : Option String) (now : ℚ) (fw : Option Nat) :
    checkFatigue cfg sc st e now fw = (none, st) ∨
    (canGenerateAlert st ("fatigue_" ++ scopeSuffix e) now cfg.cooldownMinutes = true ∧
      ∃ j, fw = some j ∧ j ≠ 0 ∧
        checkFatigue cfg sc st e now fw =
          (some { alertId := j, employeeId := e, alertType := "fatigue_detected"
                  severity := "medium", stressLevel := 1/2, timestamp := now
                  status := "pending", message := fatigueMessage e
                  resolvedAt := none, resolvedBy := none },
           setKey st ("fatigue_" ++ scopeSuffix e) now)) := by
  simp only [checkFatigue]
  split_ifs with h1 h2
  · cases fw with
    | none => left; rfl
    | some j =>
      by_cases hj : j ≠ 0
      · right
        refine ⟨h2, j, rfl, hj, ?_⟩
        simp [hj]
      · left; simp [hj]
  · left
    cases fw with
    | none => rfl
    | some j => rfl
  · left; rfl

/-- check_and_generate_alerts as the composition of its two blocks: the
fatigue check runs on the cooldown map left by the high-stress block, and its
alert, when any, is appended to the result. -/
theorem checkAndGenerateAlerts_eq (cfg : AlertConfig) (store : List DetectionEvent)
    (sc : StressCalc) (st : List (String × ℚ)) (e : Option String) (now : ℚ)
    (hw fw : Option Nat) :
    checkAndGenerateAlerts cfg store sc st e now hw fw =
      ((highStressPhase cfg st e now
          ((getDetections store e (some (now - cfg.alertWindowMinutes * 60)) none 1000).filter
            isHighStress) hw).1 ++
        (checkFatigue cfg sc
          (highStressPhase cfg st e now
            ((getDetections store e (some (now - cfg.alertWindowMinutes * 60)) none 1000).filter
              isHighStress) hw).2 e now fw).1.toList,
       (checkFatigue cfg sc
          (highStressPhase cfg st e now
            ((getDetections store e (some (now - cfg.alertWindowMinutes * 60)) none 1000).filter
              isHighStress) hw).2 e now fw).2) := by
  simp only [checkAndGenerateAlerts]
  rcases h : checkFatigue cfg sc
      (highStressPhase cfg st e now
        ((getDetections store e (some (now - cfg.alertWindowMinutes * 60)) none 1000).filter
          isHighStress) hw).2 e now fw with ⟨o, t⟩
  cases o <;> simp [Option.toList]

/-- During an unelapsed cooldown of any recorded key, the high-stress block
neither emits an alert carrying that key nor touches its entry. -/
theorem highStressPhase_preserved (cfg : AlertConfig) (st : List (String × ℚ))
    (e : Option String) (now : ℚ) (dets : List DetectionEvent) (hw : Option Nat)
    (key : String) (T : ℚ) (hkey : lookupKey st key = some T)
    (hcd : (now - T) / 60 < cfg.cooldownMinutes) :
    (∀ a ∈ (highStressPhase cfg st e now dets hw).1, alertCooldownKey a ≠ key) ∧
    lookupKey (highStressPhase cfg st e now dets hw).2 key = some T := by
  rcases highStressPhase_cases cfg st e now dets hw with h | ⟨hth, hcan, i, hhw, hi, h⟩
  · rw [h]
    exact ⟨fun a ha => absurd ha (List.not_mem_nil a), hkey⟩
  · by_cases hkh : ("high_stress_" ++ scopeSuffix e) = key
    · rw [hkh] at hcan
      rw [canGenerateAlert_false_of_recent st key now cfg.cooldownMinutes T hkey hcd] at hcan
      cases hcan
    · rw [h]
      constructor
      · intro a ha
        simp only [List.mem_singleton] at ha
        subst ha
        simpa [alertCooldownKey, createHighStressAlert] using hkh
      · rw [lookupKey_setKey_ne st _ key now (Ne.symm hkh)]
        exact hkey

/-- The fatigue analogue of highStressPhase_preserved. -/
theorem checkFatigue_preserved (cfg : AlertConfig) (sc : StressCalc)
    (st : List (String × ℚ)) (e : Option String) (now : ℚ) (fw : Option Nat)
    (key : String) (T : ℚ) (hkey : lookupKey st key = some T)
    (hcd : (now - T) / 60 < cfg.cooldownMinutes) :
    (∀ a ∈ (checkFatigue cfg sc st e now fw).1.toList, alertCooldownKey a ≠ key) ∧
    lookupKey (checkFatigue cfg sc st e now fw).2 key = some T := by
  rcases checkFatigue_cases cfg sc st e now fw with h | ⟨hcan, j, hfw, hj, h⟩
  · rw [h]
    exact ⟨fun a ha => absurd ha (List.not_mem_nil a), hkey⟩
  · by_cases hkf : ("fatigue_" ++ scopeSuffix e) = key
    · rw [hkf] at hcan
      rw [canGenerateAlert_false_of_recent st key now cfg.cooldownMinutes T hkey hcd] at hcan
      cases hcan
    · rw [h]
      constructor
      · intro a ha
        simp only [Option.toList, List.mem_singleton] at ha
        subst ha
        simpa [alertCooldownKey] using hkf
      · rw [lookupKey_setKey_ne st _ key now (Ne.symm hkf)]
        exact hkey

/-- One whole evaluate call preserves an unelapsed cooldown entry and emits no
alert carrying its key. -/
theorem checkAndGenerateAlerts_preserved (cfg : AlertConfig) (store : List DetectionEvent)
    (sc : StressCalc) (st : List (String × ℚ)) (e : Option String) (now : ℚ)
    (hw fw : Option Nat) (key : String) (T : ℚ)
    (hkey : lookupKey st key = some T)
    (hcd : (now - T) / 60 < cfg.cooldownMinutes) :
    (∀ a ∈ (checkAndGenerateAlerts cfg store sc st e now hw fw).1, alertCooldownKey a ≠ key) ∧
    lookupKey (checkAndGenerateAlerts cfg store sc st e now hw fw).2 key = some T := by
  obtain ⟨h1a, h1b⟩ := highStressPhase_preserved cfg st e now
    ((getDetections store e (some (now - cfg.alertWindowMinutes * 60)) none 1000).filter
      isHighStress) hw key T hkey hcd
  obtain ⟨h2a, h2b⟩ := checkFatigue_preserved cfg sc _ e now fw key T h1b hcd
  rw [checkAndGenerateAlerts_eq]
  constructor
  · intro a ha
    rcases List.mem_append.mp ha with hmem | hmem
    · exact h1a a hmem
    · exact h2a a hmem
  · exact h2b

/-- The positive branch of the high-stress block: threshold reached, cooldown
elapsed (or never fired) and a truthy write id. -/
theorem highStressPhase_fires (cfg : AlertConfig) (st : List (String × ℚ))
    (e : Option String) (now : ℚ) (dets : List DetectionEvent) (i : Nat)
    (hth : cfg.alertThreshold ≤ dets.length)
    (hcan : canGenerateAlert st ("high_stress_" ++ scopeSuffix e) now cfg.cooldownMinutes = true)
    (hi : i ≠ 0) :
    highStressPhase cfg st e now dets (some i) =
      ([{ createHighStressAlert cfg e dets now with alertId := i }],
       setKey st ("high_stress_" ++ scopeSuffix e) now) := by
  simp [highStressPhase, hth, hcan, hi]

/-- Eligibility (no recorded fire, or cooldown elapsed) makes
_can_generate_alert true. -/
theorem canGenerateAlert_true_of_eligible (st : List (String × ℚ)) (key : String)
    (now cd : ℚ)
    (h : lookupKey st key = none ∨ ∃ T, lookupKey st key = some T ∧ cd ≤ (now - T) / 60) :
    canGenerateAlert st key now cd = true := by
  rcases h with h | ⟨T, hT, hge⟩
  · simp [canGenerateAlert, h]
  · simp only [canGenerateAlert, hT, decide_eq_true_eq]
    exact hge

/-- An eligible scope with enough high-stress detections and a successful
write fires: the output holds a prolonged high-stress alert for the scope and
its cooldown entry is set to now. -/
theorem checkAndGenerateAlerts_fires (cfg : AlertConfig) (store : List DetectionEvent)
    (sc : StressCalc) (st : List (String × ℚ)) (e : Option String) (now : ℚ)
    (i : Nat) (fw : Option Nat)
    (helig : lookupKey st ("high_stress_" ++ scopeSuffix e) = none ∨
      ∃ T, lookupKey st ("high_stress_" ++ scopeSuffix e) = some T ∧
        cfg.cooldownMinutes ≤ (now - T) / 60)
    (hth : cfg.alertThreshold ≤
      ((getDetections store e (some (now - cfg.alertWindowMinutes * 60)) none 1000).filter
        isHighStress).length)
    (hi : i ≠ 0) :
    (∃ a ∈ (checkAndGenerateAlerts cfg store sc st e now (some i) fw).1,
      a.alertType = "high_stress_prolonged" ∧ a.employeeId = e) ∧
    lookupKey (checkAndGenerateAlerts cfg store sc st e now (some i) fw).2
      ("high_stress_" ++ scopeSuffix e) = some now := by
  have hcan := canGenerateAlert_true_of_eligible st ("high_stress_" ++ scopeSuffix e)
    now cfg.cooldownMinutes helig
  have hfire := highStressPhase_fires cfg st e now
    ((getDetections store e (some (now - cfg.alertWindowMinutes * 60)) none 1000).filter
      isHighStress) i hth hcan hi
  rw [checkAndGenerateAlerts_eq, hfire]
  constructor
  · refine ⟨{ createHighStressAlert cfg e
        ((getDetections store e (some (now - cfg.alertWindowMinutes * 60)) none 1000).filter
          isHighStress) now with alertId := i }, ?_, ?_, ?_⟩
    · exact List.mem_append_left _ (List.mem_singleton_self _)
    · simp [createHighStressAlert]
    · simp [createHighStressAlert]
  · rcases checkFatigue_cases cfg sc (setKey st ("high_stress_" ++ scopeSuffix e) now)
        e now fw with h | ⟨_, j, _, _, h⟩
    · rw [h]
      exact lookupKey_setKey_self st _ now
    · rw [h]
      rw [lookupKey_setKey_ne _ _ _ _ (highStress_key_ne_fatigue_key _ _)]
      exact lookupKey_setKey_self st _ now

/-- Over any sequence of evaluate calls all falling inside the cooldown window
of a recorded key, no generated alert carries that key and the entry keeps its
original fire time. -/
theorem runEvaluations_preserved (cfg : AlertConfig) (st : List (String × ℚ))
    (calls : List EvalCall) (key : String) (T : ℚ)
    (hkey : lookupKey st key = some T)
    (hcd : ∀ c ∈ calls, (c.now - T) / 60 < cfg.cooldownMinutes) :
    (∀ a ∈ (runEvaluations cfg st calls).1, alertCooldownKey a ≠ key) ∧
    lookupKey (runEvaluations cfg st calls).2 key = some T := by
  induction calls generalizing st with
  | nil =>
    constructor
    · intro a ha
      simp [runEvaluations] at ha
    · simpa [runEvaluations] using hkey
  | cons c cs ih =>
    obtain ⟨h1a, h1b⟩ := checkAndGenerateAlerts_preserved cfg c.store c.sc st c.employeeId
      c.now c.hsWriteResult c.ftWriteResult key T hkey (hcd c (List.mem_cons_self c cs))
    obtain ⟨h2a, h2b⟩ := ih _ h1b (fun c' hc' => hcd c' (List.mem_cons_of_mem c hc'))
    constructor
    · intro a ha
      simp only [runEvaluations] at ha
      rcases List.mem_append.mp ha with hmem | hmem
      · exact h1a a hmem
      · exact h2a a hmem
    · simpa only [runEvaluations] using h2b

/-- A failed high-stress write leaves the whole high-stress block inert. -/
theorem highStressPhase_failed_write (cfg : AlertConfig) (st : List (String × ℚ))
    (e : Option String) (now : ℚ) (dets : List DetectionEvent) (hw : Option Nat)
    (hfail : hw = none ∨ hw = some 0) :
    highStressPhase cfg st e now dets hw = ([], st) := by
  rcases highStressPhase_cases cfg st e now dets hw with h | ⟨_, _, i, hhw, hi, _⟩
  · exact h
  · rcases hfail with h0 | h0 <;> rw [h0] at hhw
    · cases hhw
    · exact absurd (Option.some.inj hhw).symm hi

/-- A failed fatigue write leaves the fatigue check inert. -/
theorem checkFatigue_failed_write (cfg : AlertConfig) (sc : StressCalc)
    (st : List (String × ℚ)) (e : Option String) (now : ℚ) (fw : Option Nat)
    (hfail : fw = none ∨ fw = some 0) :
    checkFatigue cfg sc st e now fw = (none, st) := by
  rcases checkFatigue_cases cfg sc st e now fw with h | ⟨_, j, hfw, hj, _⟩
  · exact h
  · rcases hfail with h0 | h0 <;> rw [h0] at hfw
    · cases hfw
    · exact absurd (Option.some.inj hfw).symm hj

/-! ## ReportGenerator (core/services/report_generator.py) -/

/-- Database.get_alerts: filter by status and employee when truthy, capped at
the row limit (ordering abstracted as for get_detections). -/
def getAlerts (alerts : List Alert) (status : Option String)
    (employeeId : Option String) (limit : Nat) : List Alert :=
  (alerts.filter (fun a =>
    (match status with
     | some s => if s = "" then true else decide (a.status = s)
     | none => true)
    && (match employeeId with
        | some e => if e = "" then true else decide (a.employeeId = some e)
        | none => true))).take limit

/-- The expression detection.emotion or "unknown": an absent or empty label is
falsy and is counted as "unknown". -/
def emotionOrUnknown (d : DetectionEvent) : String :=
  match d.emotion with
  | some e => if e = "" then "unknown" else e
  | none => "unknown"

/-- set(d.employee_id for d in detections if d.employee_id): the distinct
truthy employee ids (first-occurrence order standing for the set). -/
def distinctEmployees (dets : List DetectionEvent) : List String :=
  (dets.filterMap (fun d =>
    match d.employeeId with
    | some e => if e = "" then none else some e
    | none => none)).dedup

/-- The report row written to reports_15min. The per-employee breakdown
(employee_details) of the source is not modelled: no claim reads it and its
predominant-emotion tie-break iterates a Python set, whose order the source
itself leaves unspecified. -/
structure ReportData where
  timestamp : ℚ
  periodStart : ℚ
  periodEnd : ℚ
  totalDetections : Nat
  employeesDetected : Nat
  avgStressLevel : ℚ
  emotionDistribution : List (String × Nat)
  alertsGenerated : Nat
deriving DecidableEq

/-- ReportGenerator.generate_report over the trailing period
[now - interval, now]: absent when the period holds no detections, otherwise
the aggregated report, appended to the reports_15min table when the write
succeeds (saveOk models the exception-free _save_report). -/
def generateReport (store : List DetectionEvent) (alertsTable : List Alert)
    (reports : List ReportData) (now intervalMinutes : ℚ) (saveOk : Bool) :
    Option ReportData × List ReportData :=
  let startTime := now - intervalMinutes * 60
  let detections := getDetections store none (some startTime) (some now) 10000
  if detections.isEmpty then (none, reports)
  else
    let totalDetections := detections.length
    let employees := distinctEmployees detections
    let stressLevels := detections.filterMap (fun d => d.stressLevel)
    let avgStressLevel := if stressLevels.isEmpty then 0
      else stressLevels.sum / stressLevels.length
    let emotionDistribution := detections.foldl (fun d det => bumpCount d (emotionOrUnknown det)) []
    let alerts := getAlerts alertsTable none none 1000
    let alertsInPeriod := alerts.filter (fun a =>
      decide (startTime ≤ a.timestamp) && decide (a.timestamp ≤ now))
    let report : ReportData :=
      { timestamp := now, periodStart := startTime, periodEnd := now
        totalDetections := totalDetections, employeesDetected := employees.length
        avgStressLevel := round2 avgStressLevel
        emotionDistribution := emotionDistribution
        alertsGenerated := alertsInPeriod.length }
    (some report, if saveOk then reports ++ [report] else reports)

/-! ## FaceRecognizer (core/detectors/face_recognizer.py)

Embedding vectors are lists of rationals (the perception collaborator
producing them is out of scope); similarity values are real numbers since the
cosine involves square roots. The registry is the embeddings_cache dict,
employee id to stored vector, in insertion order. -/

/-- np.dot on two vectors. -/
def dotList (v w : List ℚ) : ℚ := (List.zipWith (fun a b => a * b) v w).sum

/-- np.linalg.norm: the Euclidean norm. -/
noncomputable def vecNorm (v : List ℚ) : ℝ := Real.sqrt ((dotList v v : ℚ) : ℝ)

/-- FaceRecognizer._cosine_similarity: 0.0 when either norm is zero, else the
normalized dot product. -/
noncomputable def cosineSimilarity (v w : List ℚ) : ℝ :=
  if vecNorm v = 0 ∨ vecNorm w = 0 then 0
  else (dotList v w : ℝ) / (vecNorm v * vecNorm w)

theorem dotList_self_nonneg (v : List ℚ) : 0 ≤ dotList v v := by
  induction v with
  | nil => simp [dotList]
  | cons a as ih =>
    have : dotList (a :: as) (a :: as) = a * a + dotList as as := by
      simp [dotList, List.zipWith]
    rw [this]
    nlinarith [mul_self_nonneg a]

theorem vecNorm_eq_zero_iff (v : List ℚ) : vecNorm v = 0 ↔ dotList v v = 0 := by
  constructor
  · intro h
    have h1 : ((dotList v v : ℚ) : ℝ) ≤ 0 := Real.sqrt_eq_zero'.mp h
    have h2 : (0 : ℝ) ≤ ((dotList v v : ℚ) : ℝ) := by exact_mod_cast dotList_self_nonneg v
    have : ((dotList v v : ℚ) : ℝ) = 0 := le_antisymm h1 h2
    exact_mod_cast this
  · intro h
    simp [vecNorm, h]

theorem cosineSimilarity_self (v : List ℚ) (h : dotList v v ≠ 0) :
    cosineSimilarity v v = 1 := by
  have hn : vecNorm v ≠ 0 := fun hz => h ((vecNorm_eq_zero_iff v).mp hz)
  have hd : (0 : ℝ) ≤ ((dotList v v : ℚ) : ℝ) := by exact_mod_cast dotList_self_nonneg v
  have hsq : vecNorm v * vecNorm v = ((dotList v v : ℚ) : ℝ) := Real.mul_self_sqrt hd
  have hne : ((dotList v v : ℚ) : ℝ) ≠ 0 := by exact_mod_cast h
  simp only [cosineSimilarity, hsq]
  rw [if_neg (by push_neg; exact ⟨hn, hn⟩)]
  exact div_self hne

/-- One iteration of the comparison loop of recognize_face: keep the stored
entry whose similarity strictly exceeds the best so far. -/
noncomputable def recognizeStep (query : List ℚ) (acc : Option String × ℝ)
    (p : String × List ℚ) : Option String × ℝ :=
  let s := cosineSimilarity query p.2
  if s > acc.2 then (some p.1, s) else acc

/-- FaceRecognizer.recognize_face on an already computed query embedding: fold
the registry from (None, 0.0), then apply the threshold test. -/
noncomputable def recognizeFace (threshold : ℝ) (registry : List (String × List ℚ))
    (query : List ℚ) : Option String × ℝ :=
  if registry.isEmpty then (none, 0)
  else
    let best := registry.foldl (recognizeStep query) (none, 0)
    if best.2 ≥ threshold then best else (none, best.2)

theorem recognizeFold_snd_ge_init (q : List ℚ) (R : List (String × List ℚ))
    (acc : Option String × ℝ) : acc.2 ≤ (R.foldl (recognizeStep q) acc).2 := by
  induction R generalizing acc with
  | nil => simp
  | cons a as ih =>
    have step : acc.2 ≤ (recognizeStep q acc a).2 := by
      simp only [recognizeStep]
      split_ifs with hlt
      · exact le_of_lt hlt
      · exact le_refl _
    calc acc.2 ≤ (recognizeStep q acc a).2 := step
      _ ≤ (as.foldl (recognizeStep q) (recognizeStep q acc a)).2 := ih _

theorem recognizeFold_snd_ge_mem (q : List ℚ) (R : List (String × List ℚ))
    (acc : Option String × ℝ) (p : String × List ℚ) (hp : p ∈ R) :
    cosineSimilarity q p.2 ≤ (R.foldl (recognizeStep q) acc).2 := by
  induction R generalizing acc with
  | nil => cases hp
  | cons a as ih =>
    rcases List.mem_cons.mp hp with heq | hmem
    · subst heq
      have h1 : cosineSimilarity q p.2 ≤ (recognizeStep q acc p).2 := by
        simp only [recognizeStep]
        split_ifs with hlt
        · exact le_refl _
        · exact le_of_not_lt hlt
      calc cosineSimilarity q p.2 ≤ (recognizeStep q acc p).2 := h1
        _ ≤ (as.foldl (recognizeStep q) (recognizeStep q acc p)).2 :=
          recognizeFold_snd_ge_init q as _
    · exact ih _ hmem

theorem recognizeFold_eq_init_or_mem (q : List ℚ) (R : List (String × List ℚ))
    (acc : Option String × ℝ) :
    R.foldl (recognizeStep q) acc = acc ∨
      ∃ p ∈ R, R.foldl (recognizeStep q) acc = (some p.1, cosineSimilarity q p.2) := by
  induction R generalizing acc with
  | nil => left; rfl
  | cons a as ih =>
    rcases ih (recognizeStep q acc a) with h | ⟨p, hp, hfold⟩
    · simp only [List.foldl_cons] at *
      rw [h]
      simp only [recognizeStep]
      split_ifs with hlt
      · right; exact ⟨a, List.mem_cons_self a as, rfl⟩
      · left; rfl
    · right
      exact ⟨p, List.mem_cons_of_mem a hp, hfold⟩

/-! Enrollment. -/

/-- The similarity list over all unordered pairs of embeddings, in the order
of the nested loop of enroll_employee. -/
noncomputable def pairSims : List (List ℚ) → List ℝ
  | [] => []
  | x :: xs => xs.map (fun y => cosineSimilarity x y) ++ pairSims xs

/-- np.mean(embeddings, axis = 0): the componentwise average. -/
def avgVec (l : List (List ℚ)) : List ℚ :=
  match l with
  | [] => []
  | x :: xs =>
    (xs.foldl (fun a v => List.zipWith (fun p q => p + q) a v) x).map
      (fun q => q / ((xs.length + 1 : Nat) : ℚ))

/-- The enrollment quality: np.mean of the pairwise similarities (0.0 when
there are none). -/
noncomputable def enrollQuality (embeddings : List (List ℚ)) : ℝ :=
  let sims := pairSims embeddings
  if sims.isEmpty then 0 else sims.sum / sims.length

/-- FaceRecognizer.enroll_employee on the embeddings produced from the face
samples (the per-sample generate_embedding result, None on failure). saveOk
models the try block of the json dump and cache update completing without an
exception; the failure paths checked by the claims all precede it. -/
noncomputable def enrollEmployee (registry : List (String × List ℚ))
    (employeeId : String) (embedResults : List (Option (List ℚ)))
    (saveOk : Bool) : Bool × List (String × List ℚ) :=
  if embedResults.length < 3 then (false, registry)
  else
    let embeddings := embedResults.filterMap (fun x => x)
    if embeddings.length < 3 then (false, registry)
    else
      let avgEmbedding := avgVec embeddings
      if enrollQuality embeddings < 7/10 then (false, registry)
      else if saveOk then (true, setKey registry employeeId avgEmbedding)
      else (false, registry)

/-! ## Claims about the stress index (C2, C5, C10) -/

/-- calculate_stress_index unfolded to its three outcomes. -/
theorem calculateStressIndex_eq (sc : StressCalc) (employeeId : Option String)
    (window : Option Nat) :
    calculateStressIndex sc employeeId window =
      if (selectHistory sc employeeId).length < 5 then 0
      else if (recentWindow (selectHistory sc employeeId) (effectiveWindow sc window)).length = 0
        then 0
      else round2
        (((recentWindow (selectHistory sc employeeId) (effectiveWindow sc window)).countP
            (fun e => isNegative e.emotion) : ℚ) /
          ((recentWindow (selectHistory sc employeeId) (effectiveWindow sc window)).length : ℚ)
          * 100) := rfl

theorem recentWindow_length_pos (h : List EmotionEntry) (w : Nat)
    (hl : 1 ≤ h.length) : 0 < (recentWindow h w).length := by
  unfold recentWindow
  split_ifs with hw
  · omega
  · rw [List.length_drop]; omega

/-- The history of the C2 scenario: 31 observations whose last 30 hold 16
negative labels. -/
def e1History : List EmotionEntry :=
  ⟨"happy", 0, 0⟩ :: (List.replicate 14 ⟨"neutral", 0, 0⟩ ++ List.replicate 16 ⟨"angry", 0, 0⟩)

/-- The C2 scenario state for scope E1, with the default max_history 100 and
window_size 30. -/
def scenarioE1 : StressCalc :=
  { maxHistory := 100, windowSize := 30, employeeHistories := [("E1", e1History)]
    globalHistory := [], stressEvents := [] }

/-- A comparison state for the C5 monotonicity witness: the last 30
observations of scope E2 hold only 10 negative labels. -/
def e2History : List EmotionEntry :=
  ⟨"happy", 0, 0⟩ :: (List.replicate 20 ⟨"neutral", 0, 0⟩ ++ List.replicate 10 ⟨"angry", 0, 0⟩)

def scenarioE2 : StressCalc :=
  { maxHistory := 100, windowSize := 30, employeeHistories := [("E2", e2History)]
    globalHistory := [], stressEvents := [] }

/-- C2: for every scope, stress_index returns 0.0 on a selected history of
fewer than 5 samples, and otherwise equals 100 times the negative share of
the most recent window samples rounded to 2 decimals; on the scenario of 31
observations whose last 30 hold 16 negative labels with window 30 it returns
53.33. -/
theorem claim_C2 :
    (∀ (sc : StressCalc) (employeeId : Option String) (w : Nat), 0 < w →
      ((selectHistory sc employeeId).length < 5 →
        calculateStressIndex sc employeeId (some w) = 0) ∧
      (5 ≤ (selectHistory sc employeeId).length →
        calculateStressIndex sc employeeId (some w) =
          round2 (((recentWindow (selectHistory sc employeeId) w).countP
              (fun e => isNegative e.emotion) : ℚ) /
            ((recentWindow (selectHistory sc employeeId) w).length : ℚ) * 100))) ∧
    calculateStressIndex scenarioE1 (some "E1") (some 30) = 5333 / 100 := by
  constructor
  · intro sc employeeId w hw
    have hweff : effectiveWindow sc (some w) = w := by
      simp [effectiveWindow, Nat.pos_iff_ne_zero.mp hw]
    constructor
    · intro hlen
      rw [calculateStressIndex_eq, if_pos hlen]
    · intro hlen
      have h5 : ¬(selectHistory sc employeeId).length < 5 := by omega
      have htotal : ¬(recentWindow (selectHistory sc employeeId) w).length = 0 := by
        have := recentWindow_length_pos (selectHistory sc employeeId) w (by omega)
        omega
      rw [calculateStressIndex_eq, if_neg h5, hweff, if_neg htotal]
  · have hsel : selectHistory scenarioE1 (some "E1") = e1History := by
      simp [selectHistory, scenarioE1, lookupKey]
    have hl31 : e1History.length = 31 := by decide
    have hcount : (recentWindow e1History 30).countP (fun e => isNegative e.emotion) = 16 := by
      decide
    have hlen : (recentWindow e1History 30).length = 30 := by decide
    have hweff : effectiveWindow scenarioE1 (some 30) = 30 := by
      simp [effectiveWindow]
    rw [calculateStressIndex_eq, hsel, hweff, hl31, hcount, hlen]
    norm_num [round2, roundHalfEven]

theorem claim_C2_witness :
    calculateStressIndex (StressCalc.init 100 30) none (some 30) = 0 ∧
    calculateStressIndex scenarioE1 (some "E1") (some 30) =
      round2 (((recentWindow (selectHistory scenarioE1 (some "E1")) 30).countP
          (fun e => isNegative e.emotion) : ℚ) /
        ((recentWindow (selectHistory scenarioE1 (some "E1")) 30).length : ℚ) * 100) :=
  ⟨(claim_C2.1 (StressCalc.init 100 30) none 30 (by norm_num)).1 (by decide),
   (claim_C2.1 scenarioE1 (some "E1") 30 (by norm_num)).2 (by decide)⟩

/-- C5: the stress index always lies in [0, 100], and over two selected
histories whose recent windows hold equally many samples, the index of the
window with at least as many negative samples is never smaller. -/
theorem claim_C5 :
    (∀ (sc : StressCalc) (employeeId : Option String) (window : Option Nat),
      0 ≤ calculateStressIndex sc employeeId window ∧
      calculateStressIndex sc employeeId window ≤ 100) ∧
    (∀ (sc1 sc2 : StressCalc) (id1 id2 : Option String) (w1 w2 : Option Nat),
      (recentWindow (selectHistory sc1 id1) (effectiveWindow sc1 w1)).length =
        (recentWindow (selectHistory sc2 id2) (effectiveWindow sc2 w2)).length →
      5 ≤ (selectHistory sc1 id1).length →
      5 ≤ (selectHistory sc2 id2).length →
      (recentWindow (selectHistory sc2 id2) (effectiveWindow sc2 w2)).countP
          (fun e => isNegative e.emotion) ≤
        (recentWindow (selectHistory sc1 id1) (effectiveWindow sc1 w1)).countP
          (fun e => isNegative e.emotion) →
      calculateStressIndex sc2 id2 w2 ≤ calculateStressIndex sc1 id1 w1) := by
  constructor
  · intro sc employeeId window
    rw [calculateStressIndex_eq]
    split_ifs with h5 ht
    · norm_num
    · norm_num
    · have hcount : (recentWindow (selectHistory sc employeeId)
          (effectiveWindow sc window)).countP (fun e => isNegative e.emotion) ≤
          (recentWindow (selectHistory sc employeeId) (effectiveWindow sc window)).length :=
        List.countP_le_length _
      have htpos : (0 : ℚ) <
          ((recentWindow (selectHistory sc employeeId) (effectiveWindow sc window)).length : ℚ) := by
        exact_mod_cast Nat.pos_of_ne_zero ht
      have h0 : (0 : ℚ) ≤
          ((recentWindow (selectHistory sc employeeId) (effectiveWindow sc window)).countP
            (fun e => isNegative e.emotion) : ℚ) /
          ((recentWindow (selectHistory sc employeeId) (effectiveWindow sc window)).length : ℚ)
          * 100 := by positivity
      have h1 : ((recentWindow (selectHistory sc employeeId) (effectiveWindow sc window)).countP
            (fun e => isNegative e.emotion) : ℚ) /
          ((recentWindow (selectHistory sc employeeId) (effectiveWindow sc window)).length : ℚ)
          ≤ 1 := by
        rw [div_le_one htpos]
        exact_mod_cast hcount
      exact round2_range h0 (by linarith)
  · intro sc1 sc2 id1 id2 w1 w2 hlen h51 h52 hcount
    have hpos1 : 0 < (recentWindow (selectHistory sc1 id1) (effectiveWindow sc1 w1)).length :=
      recentWindow_length_pos _ _ (by omega)
    have hpos2 : 0 < (recentWindow (selectHistory sc2 id2) (effectiveWindow sc2 w2)).length :=
      recentWindow_length_pos _ _ (by omega)
    rw [calculateStressIndex_eq, calculateStressIndex_eq,
      if_neg (by omega : ¬(selectHistory sc1 id1).length < 5),
      if_neg (by omega : ¬(selectHistory sc2 id2).length < 5),
      if_neg (by omega), if_neg (by omega)]
    apply round2_mono
    rw [hlen]
    have hq : ((recentWindow (selectHistory sc2 id2) (effectiveWindow sc2 w2)).countP
          (fun e => isNegative e.emotion) : ℚ) ≤
        ((recentWindow (selectHistory sc1 id1) (effectiveWindow sc1 w1)).countP
          (fun e => isNegative e.emotion) : ℚ) := by exact_mod_cast hcount
    have hppos : (0 : ℚ) <
        ((recentWindow (selectHistory sc2 id2) (effectiveWindow sc2 w2)).length : ℚ) := by
      exact_mod_cast hpos2
    gcongr

theorem claim_C5_witness :
    (0 ≤ calculateStressIndex scenarioE1 (some "E1") (some 30) ∧
      calculateStressIndex scenarioE1 (some "E1") (some 30) ≤ 100) ∧
    calculateStressIndex scenarioE2 (some "E2") (some 30) ≤
      calculateStressIndex scenarioE1 (some "E1") (some 30) :=
  ⟨claim_C5.1 scenarioE1 (some "E1") (some 30),
   claim_C5.2 scenarioE1 scenarioE2 (some "E1") (some "E2") (some 30) (some 30)
     (by decide) (by decide) (by decide) (by decide)⟩

/-- The shared history selection falls back to the global history for an id
that has no per-employee entry. -/
theorem selectHistory_of_lookup_none (sc : StressCalc) (e : String)
    (h : lookupKey sc.employeeHistories e = none) :
    selectHistory sc (some e) = sc.globalHistory := by
  simp only [selectHistory]
  split_ifs with he
  · rfl
  · rw [h]

/-- C10 (implicit): every read operation for a subject with no recorded
per-subject history is computed over the global history: the stress index,
emotion distribution, threshold decision, and every history-derived metrics
field agree with the global-scope call. (The stress_events_count field is not
history-derived: it filters the event log by the requested id.) -/
theorem claim_C10 (sc : StressCalc) (employeeId : String) (window : Option Nat)
    (threshold now hours : ℚ)
    (hmiss : lookupKey sc.employeeHistories employeeId = none) :
    calculateStressIndex sc (some employeeId) window = calculateStressIndex sc none window ∧
    getEmotionDistribution sc (some employeeId) now hours =
      getEmotionDistribution sc none now hours ∧
    (checkStressThreshold sc threshold (some employeeId) now).1 =
      (checkStressThreshold sc threshold none now).1 ∧
    (getMetrics sc (some employeeId) now).stressIndex = (getMetrics sc none now).stressIndex ∧
    (getMetrics sc (some employeeId) now).totalDetections =
      (getMetrics sc none now).totalDetections ∧
    (getMetrics sc (some employeeId) now).negativeCount =
      (getMetrics sc none now).negativeCount ∧
    (getMetrics sc (some employeeId) now).negativePercentage =
      (getMetrics sc none now).negativePercentage ∧
    (getMetrics sc (some employeeId) now).predominantEmotion =
      (getMetrics sc none now).predominantEmotion ∧
    (getMetrics sc (some employeeId) now).emotionDistribution =
      (getMetrics sc none now).emotionDistribution := by
  have hsel : selectHistory sc (some employeeId) = selectHistory sc none :=
    selectHistory_of_lookup_none sc employeeId hmiss
  have hsi : ∀ w, calculateStressIndex sc (some employeeId) w = calculateStressIndex sc none w := by
    intro w
    rw [calculateStressIndex_eq, calculateStressIndex_eq, hsel]
  have hdist : ∀ n h, getEmotionDistribution sc (some employeeId) n h =
      getEmotionDistribution sc none n h := by
    intro n h
    simp only [getEmotionDistribution, hsel]
  refine ⟨hsi window, hdist now hours, ?_, ?_, ?_, ?_, ?_, ?_, ?_⟩
  · simp only [checkStressThreshold, hsi, hsel]
    split_ifs <;> rfl
  · simp only [getMetrics, hsi]
  · simp only [getMetrics, hdist]
  · simp only [getMetrics, hdist]
  · simp only [getMetrics, hdist]
  · simp only [getMetrics, hdist]
  · simp only [getMetrics, hdist]

theorem claim_C10_witness :
    calculateStressIndex scenarioE1 (some "E9") (some 30) =
      calculateStressIndex scenarioE1 none (some 30) :=
  (claim_C10 scenarioE1 "E9" (some 30) 50 0 24 (by decide)).1

/-! ## Claim about the report generator (C9) -/

/-- C9: generate_report over a period holding no detection events returns
absent and persists nothing; a report row is appended only when at least one
stored detection falls inside the trailing period. -/
theorem claim_C9 (store : List DetectionEvent) (alertsTable : List Alert)
    (reports : List ReportData) (now intervalMinutes : ℚ) (saveOk : Bool) :
    (getDetections store none (some (now - intervalMinutes * 60)) (some now) 10000 = [] →
      generateReport store alertsTable reports now intervalMinutes saveOk = (none, reports)) ∧
    ((generateReport store alertsTable reports now intervalMinutes saveOk).2 ≠ reports →
      ∃ d ∈ store, now - intervalMinutes * 60 ≤ d.timestamp ∧ d.timestamp ≤ now) := by
  constructor
  · intro h
    simp [generateReport, h]
  · intro hne
    by_cases hd : getDetections store none (some (now - intervalMinutes * 60)) (some now) 10000 = []
    · exact absurd (by simp [generateReport, hd]) hne
    · obtain ⟨d, hdmem⟩ := List.exists_mem_of_ne_nil _ hd
      unfold getDetections at hdmem
      have h1 := List.mem_of_mem_take hdmem
      obtain ⟨hstore, hpred⟩ := List.mem_filter.mp h1
      simp only [Bool.and_eq_true, decide_eq_true_eq] at hpred
      obtain ⟨⟨-, hA⟩, hB⟩ := hpred
      exact ⟨d, hstore, hA, hB⟩

/-- A single detection at time 0 for the C9 witness. -/
def c9Detection : DetectionEvent :=
  ⟨some 1, none, some "E1", 0, some "neutral", 1, none⟩

theorem claim_C9_witness :
    generateReport [] [] [] 900 15 true = (none, []) ∧
    ∃ d ∈ [c9Detection], (0 : ℚ) - 15 * 60 ≤ d.timestamp ∧ d.timestamp ≤ 0 :=
  ⟨(claim_C9 [] [] [] 900 15 true).1 rfl,
   (claim_C9 [c9Detection] [] [] 0 15 true).2 (by norm_num [generateReport, getDetections, c9Detection])⟩

/-! ## Claim about the alert lifecycle (C3) -/

/-- A stored alert that has already been resolved, used to exhibit the C3
counterexample. -/
def resolvedA : Alert :=
  ⟨1, none, "high_stress_prolonged", "high", 9/10, 0, "resolved", "", some 100, some "u"⟩

/-- C3 counterexample: update_alert_status has no precondition on the current
status, so acknowledging the already resolved alert moves it back to
acknowledged (resolved is not terminal), and resolving it again is reported a
success but rewrites resolved_at and resolved_by (not a no-op). -/
theorem claim_C3_counterexample :
    (acknowledgeAlert [resolvedA] 1 "v" 200 true).2.map (fun a => a.status) = ["acknowledged"] ∧
    (acknowledgeAlert [resolvedA] 1 "v" 200 true).1 = true ∧
    (resolveAlert [resolvedA] 1 "v" 200 true).1 = true ∧
    (resolveAlert [resolvedA] 1 "v" 200 true).2.map (fun a => a.resolvedBy) = [some "v"] ∧
    (resolveAlert [resolvedA] 1 "v" 200 true).2 ≠ [resolvedA] := by
  refine ⟨rfl, rfl, rfl, rfl, ?_⟩
  intro h
  have h2 := congrArg (fun l => l.map (fun a => a.resolvedBy)) h
  simp [resolveAlert, updateAlertStatus, resolvedA] at h2

/-- The matching row of an update_alert_status call becomes the overwritten
row in the written table. -/
theorem updateAlertStatus_mem_updated (alerts : List Alert) (alertId : Nat)
    (status : String) (resolvedBy : Option String) (now : ℚ) (a : Alert)
    (ha : a ∈ alerts) (hid : a.alertId = alertId) :
    { a with
      status := status,
      resolvedAt := if status = "resolved" then some now else none,
      resolvedBy := resolvedBy } ∈
      (updateAlertStatus alerts alertId status resolvedBy now true).2 := by
  have h := List.mem_map_of_mem (fun b : Alert =>
    if b.alertId = alertId then
      { b with
        status := status,
        resolvedAt := if status = "resolved" then some now else none,
        resolvedBy := resolvedBy }
    else b) ha
  simpa [updateAlertStatus, hid] using h

/-- Rows with a different id pass through update_alert_status unchanged. -/
theorem updateAlertStatus_mem_other (alerts : List Alert) (alertId : Nat)
    (status : String) (resolvedBy : Option String) (now : ℚ) (a : Alert)
    (ha : a ∈ alerts) (hid : a.alertId ≠ alertId) :
    a ∈ (updateAlertStatus alerts alertId status resolvedBy now true).2 := by
  have h := List.mem_map_of_mem (fun b : Alert =>
    if b.alertId = alertId then
      { b with
        status := status,
        resolvedAt := if status = "resolved" then some now else none,
        resolvedBy := resolvedBy }
    else b) ha
  simpa [updateAlertStatus, hid] using h

/-- C3 (amended): update_alert_status overwrites status, resolved_at and
resolved_by of the matching alert unconditionally and reports success, with
every other row untouched: resolve sets (resolved, now, actor) from any prior
status, acknowledge sets (acknowledged, NULL, actor) even on a resolved
alert, and a second resolve keeps the status resolved but refreshes
resolved_at and resolved_by to the newer call. -/
theorem claim_C3_amended (alerts : List Alert) (alertId : Nat) (userId : String)
    (now : ℚ) :
    (resolveAlert alerts alertId userId now true).1 = true ∧
    (acknowledgeAlert alerts alertId userId now true).1 = true ∧
    (∀ a ∈ alerts, a.alertId = alertId →
      { a with status := "resolved", resolvedAt := some now, resolvedBy := some userId } ∈
        (resolveAlert alerts alertId userId now true).2 ∧
      { a with status := "acknowledged", resolvedAt := none, resolvedBy := some userId } ∈
        (acknowledgeAlert alerts alertId userId now true).2) ∧
    (∀ a ∈ alerts, a.alertId ≠ alertId →
      a ∈ (resolveAlert alerts alertId userId now true).2 ∧
      a ∈ (acknowledgeAlert alerts alertId userId now true).2) ∧
    (∀ a ∈ alerts, a.alertId = alertId → ∀ (u2 : String) (t2 : ℚ),
      (resolveAlert (resolveAlert alerts alertId userId now true).2 alertId u2 t2 true).1 =
        true ∧
      { a with status := "resolved", resolvedAt := some t2, resolvedBy := some u2 } ∈
        (resolveAlert (resolveAlert alerts alertId userId now true).2 alertId u2 t2 true).2) := by
  refine ⟨rfl, rfl, ?_, ?_, ?_⟩
  · intro a ha hid
    constructor
    · simpa using updateAlertStatus_mem_updated alerts alertId "resolved" (some userId) now a ha hid
    · simpa using updateAlertStatus_mem_updated alerts alertId "acknowledged" (some userId) now
        a ha hid
  · intro a ha hid
    exact ⟨updateAlertStatus_mem_other alerts alertId "resolved" (some userId) now a ha hid,
      updateAlertStatus_mem_other alerts alertId "acknowledged" (some userId) now a ha hid⟩
  · intro a ha hid u2 t2
    refine ⟨rfl, ?_⟩
    have h1 := updateAlertStatus_mem_updated alerts alertId "resolved" (some userId) now a ha hid
    have h2 := updateAlertStatus_mem_updated (resolveAlert alerts alertId userId now true).2
      alertId "resolved" (some u2) t2 _ h1 hid
    simpa using h2

theorem claim_C3_amended_witness :
    { resolvedA with
      status := "resolved",
      resolvedAt := some (5 : ℚ),
      resolvedBy := some "w" } ∈ (resolveAlert [resolvedA] 1 "w" 5 true).2 ∧
    { resolvedA with
      status := "acknowledged",
      resolvedAt := none,
      resolvedBy := some "w" } ∈ (acknowledgeAlert [resolvedA] 1 "w" 5 true).2 ∧
    resolvedA ∈ (resolveAlert [resolvedA] 2 "w" 5 true).2 :=
  ⟨((claim_C3_amended [resolvedA] 1 "w" 5).2.2.1 resolvedA (List.mem_singleton_self _) rfl).1,
   ((claim_C3_amended [resolvedA] 1 "w" 5).2.2.1 resolvedA (List.mem_singleton_self _) rfl).2,
   ((claim_C3_amended [resolvedA] 2 "w" 5).2.2.2.1 resolvedA (List.mem_singleton_self _)
     (by decide)).1⟩

/-! ## Claims about alert cooldowns (C1, C7) -/

/-- C1 (amended): the cooldown map is keyed by the realized strings
high_stress_ or fatigue_ followed by (scope or "global"), so a subject
literally named "global" shares its key with the global scope. In those
string-key terms the claim holds: once a key fired at time T, no evaluate
call before T + cooldown_minutes creates another alert carrying that key and
the entry keeps T; an evaluate call whose key has no entry, or whose cooldown
has elapsed, with the threshold condition met and a successful write, fires
and sets the entry to now. -/
theorem claim_C1 :
    (∀ (cfg : AlertConfig) (st : List (String × ℚ)) (calls : List EvalCall)
        (key : String) (T : ℚ),
      lookupKey st key = some T →
      (∀ c ∈ calls, (c.now - T) / 60 < cfg.cooldownMinutes) →
      (∀ a ∈ (runEvaluations cfg st calls).1, alertCooldownKey a ≠ key) ∧
        lookupKey (runEvaluations cfg st calls).2 key = some T) ∧
    (∀ (cfg : AlertConfig) (store : List DetectionEvent) (sc : StressCalc)
        (st : List (String × ℚ)) (e : Option String) (now : ℚ) (i : Nat)
        (fw : Option Nat),
      (lookupKey st ("high_stress_" ++ scopeSuffix e) = none ∨
        ∃ T, lookupKey st ("high_stress_" ++ scopeSuffix e) = some T ∧
          cfg.cooldownMinutes ≤ (now - T) / 60) →
      cfg.alertThreshold ≤
        ((getDetections store e (some (now - cfg.alertWindowMinutes * 60)) none 1000).filter
          isHighStress).length →
      i ≠ 0 →
      (∃ a ∈ (checkAndGenerateAlerts cfg store sc st e now (some i) fw).1,
        a.alertType = "high_stress_prolonged" ∧ a.employeeId = e) ∧
      lookupKey (checkAndGenerateAlerts cfg store sc st e now (some i) fw).2
        ("high_stress_" ++ scopeSuffix e) = some now) :=
  ⟨fun cfg st calls key T hkey hcd => runEvaluations_preserved cfg st calls key T hkey hcd,
   fun cfg store sc st e now i fw helig hth hi =>
     checkAndGenerateAlerts_fires cfg store sc st e now i fw helig hth hi⟩

/-- A stored detection for the employee literally named "global", with a
stress level above 0.7. -/
def cexDetection : DetectionEvent :=
  ⟨some 1, none, some "global", 0, some "stress_high", 1, some (4/5)⟩

/-- Alert threshold 1, window 15 minutes, cooldown 60 minutes. -/
def cexCfg : AlertConfig := ⟨1, 15, 60⟩

theorem cexDetection_highStress : isHighStress cexDetection = true := by
  norm_num [isHighStress, cexDetection]

theorem cexDetections_none :
    getDetections [cexDetection] none (some ((0 : ℚ) - cexCfg.alertWindowMinutes * 60))
      none 1000 = [cexDetection] := by
  norm_num [getDetections, cexDetection, cexCfg]

theorem cexDetections_global :
    getDetections [cexDetection] (some "global")
      (some ((0 : ℚ) - cexCfg.alertWindowMinutes * 60)) none 1000 = [cexDetection] := by
  norm_num [getDetections, cexDetection, cexCfg]

theorem selectHistory_init (m w : Nat) (e : Option String) :
    selectHistory (StressCalc.init m w) e = [] := by
  cases e with
  | none => rfl
  | some x =>
    simp only [selectHistory, StressCalc.init, lookupKey]
    split_ifs <;> rfl

/-- The fatigue check is silent on a freshly constructed calculator. -/
theorem checkFatigue_init (cfg : AlertConfig) (m w : Nat) (st : List (String × ℚ))
    (e : Option String) (now : ℚ) (fw : Option Nat) :
    checkFatigue cfg (StressCalc.init m w) st e now fw = (none, st) := by
  simp [checkFatigue, getEmotionDistribution, selectHistory_init, lookupKey]

/-- The high-stress block is inert when the cooldown check denies. -/
theorem highStressPhase_not_eligible (cfg : AlertConfig) (st : List (String × ℚ))
    (e : Option String) (now : ℚ) (dets : List DetectionEvent) (hw : Option Nat)
    (hcan : canGenerateAlert st ("high_stress_" ++ scopeSuffix e) now cfg.cooldownMinutes
      = false) :
    highStressPhase cfg st e now dets hw = ([], st) := by
  simp [highStressPhase, hcan]

/-- Full evaluation of the first counterexample call: the global scope fires
its high-stress alert and records the string key high_stress_global at time
0. -/
theorem cexCall1_eval :
    checkAndGenerateAlerts cexCfg [cexDetection] (StressCalc.init 100 30) [] none 0
      (some 1) (some 1) =
      ([{ createHighStressAlert cexCfg none [cexDetection] 0 with alertId := 1 }],
       [("high_stress_global", 0)]) := by
  rw [checkAndGenerateAlerts_eq, cexDetections_none]
  have hfilter : [cexDetection].filter isHighStress = [cexDetection] := by
    simp [List.filter, cexDetection_highStress]
  rw [hfilter]
  have hcan : canGenerateAlert [] ("high_stress_" ++ scopeSuffix none) 0
      cexCfg.cooldownMinutes = true := rfl
  have hfire := highStressPhase_fires cexCfg [] none 0 [cexDetection] 1
    (by norm_num [cexCfg]) hcan one_ne_zero
  rw [hfire, checkFatigue_init]
  simp [setKey, scopeSuffix]

/-- C1 counterexample against the claim as stated over (alert_type, scope)
keys: after the global scope (scope absent) fires at time 0, an immediate
evaluate call for the subject named "global" meets the threshold condition
with a successful write, and the key (high_stress_prolonged, "global") has
never fired, yet no alert is created: both scopes collapse onto the string
key high_stress_global, so the never-fired key is not eligible immediately. -/
theorem claim_C1_counterexample :
    (checkAndGenerateAlerts cexCfg [cexDetection] (StressCalc.init 100 30) [] none 0
        (some 1) (some 1)).1.map (fun a => (a.alertType, a.employeeId)) =
      [("high_stress_prolonged", none)] ∧
    1 ≤ ((getDetections [cexDetection] (some "global")
        (some ((0 : ℚ) - cexCfg.alertWindowMinutes * 60)) none 1000).filter
          isHighStress).length ∧
    (checkAndGenerateAlerts cexCfg [cexDetection] (StressCalc.init 100 30)
      (checkAndGenerateAlerts cexCfg [cexDetection] (StressCalc.init 100 30) [] none 0
        (some 1) (some 1)).2 (some "global") 0 (some 1) (some 1)).1 = [] := by
  refine ⟨?_, ?_, ?_⟩
  · rw [cexCall1_eval]
    simp [createHighStressAlert]
  · rw [cexDetections_global]
    simp [List.filter, cexDetection_highStress]
  · rw [cexCall1_eval]
    rw [checkAndGenerateAlerts_eq, cexDetections_global]
    have happend : ("high_stress_" ++ "global" : String) = "high_stress_global" := rfl
    have hcan : canGenerateAlert [("high_stress_global", (0 : ℚ))]
        ("high_stress_" ++ scopeSuffix (some "global")) 0 cexCfg.cooldownMinutes = false := by
      norm_num [canGenerateAlert, lookupKey, scopeSuffix, cexCfg, happend]
    rw [highStressPhase_not_eligible cexCfg _ (some "global") 0 _ (some 1) hcan,
      checkFatigue_init]
    rfl

theorem claim_C1_witness :
    ((∀ a ∈ (runEvaluations cexCfg [("high_stress_global", (0 : ℚ))]
        [⟨none, 60, [cexDetection], StressCalc.init 100 30, some 1, some 1⟩]).1,
      alertCooldownKey a ≠ "high_stress_global") ∧
      lookupKey (runEvaluations cexCfg [("high_stress_global", (0 : ℚ))]
        [⟨none, 60, [cexDetection], StressCalc.init 100 30, some 1, some 1⟩]).2
        "high_stress_global" = some 0) ∧
    ((∃ a ∈ (checkAndGenerateAlerts cexCfg [cexDetection] (StressCalc.init 100 30) [] none 0
        (some 1) (some 1)).1, a.alertType = "high_stress_prolonged" ∧ a.employeeId = none) ∧
      lookupKey (checkAndGenerateAlerts cexCfg [cexDetection] (StressCalc.init 100 30) [] none
        0 (some 1) (some 1)).2 ("high_stress_" ++ scopeSuffix none) = some 0) :=
  ⟨claim_C1.1 cexCfg [("high_stress_global", (0 : ℚ))]
      [⟨none, 60, [cexDetection], StressCalc.init 100 30, some 1, some 1⟩]
      "high_stress_global" 0 rfl
      (by intro c hc; simp only [List.mem_singleton] at hc; subst hc; norm_num [cexCfg]),
   claim_C1.2 cexCfg [cexDetection] (StressCalc.init 100 30) [] none 0 1 (some 1)
      (Or.inl rfl)
      (by rw [cexDetections_none]; simp [List.filter, cexDetection_highStress, cexCfg])
      one_ne_zero⟩

/-- C7: a failed alert write (db.add_alert returning no id, or the falsy row
id 0) leaves the cooldown entry of that alert key unchanged, so its
eligibility at any later tick is exactly what it was; a cooldown entry only
ever changes to now, and only when the corresponding write returned a truthy
id. -/
theorem claim_C7 (cfg : AlertConfig) (store : List DetectionEvent) (sc : StressCalc)
    (st : List (String × ℚ)) (e : Option String) (now : ℚ) :
    (∀ (fw hw : Option Nat), hw = none ∨ hw = some 0 →
      lookupKey (checkAndGenerateAlerts cfg store sc st e now hw fw).2
          ("high_stress_" ++ scopeSuffix e) =
        lookupKey st ("high_stress_" ++ scopeSuffix e) ∧
      ∀ now2 : ℚ, canGenerateAlert (checkAndGenerateAlerts cfg store sc st e now hw fw).2
          ("high_stress_" ++ scopeSuffix e) now2 cfg.cooldownMinutes =
        canGenerateAlert st ("high_stress_" ++ scopeSuffix e) now2 cfg.cooldownMinutes) ∧
    (∀ (hw fw : Option Nat), fw = none ∨ fw = some 0 →
      lookupKey (checkAndGenerateAlerts cfg store sc st e now hw fw).2
          ("fatigue_" ++ scopeSuffix e) =
        lookupKey st ("fatigue_" ++ scopeSuffix e)) ∧
    (∀ (hw fw : Option Nat) (key : String),
      lookupKey (checkAndGenerateAlerts cfg store sc st e now hw fw).2 key ≠
        lookupKey st key →
      lookupKey (checkAndGenerateAlerts cfg store sc st e now hw fw).2 key = some now ∧
      ((key = "high_stress_" ++ scopeSuffix e ∧ ∃ i, hw = some i ∧ i ≠ 0) ∨
       (key = "fatigue_" ++ scopeSuffix e ∧ ∃ j, fw = some j ∧ j ≠ 0))) := by
  refine ⟨?_, ?_, ?_⟩
  · intro fw hw hfail
    have h1 := highStressPhase_failed_write cfg st e now
      ((getDetections store e (some (now - cfg.alertWindowMinutes * 60)) none 1000).filter
        isHighStress) hw hfail
    have hlk : lookupKey (checkAndGenerateAlerts cfg store sc st e now hw fw).2
        ("high_stress_" ++ scopeSuffix e) = lookupKey st ("high_stress_" ++ scopeSuffix e) := by
      rw [checkAndGenerateAlerts_eq, h1]
      rcases checkFatigue_cases cfg sc st e now fw with h2 | ⟨-, j, -, -, h2⟩ <;> rw [h2]
      exact lookupKey_setKey_ne st _ _ now (highStress_key_ne_fatigue_key _ _)
    exact ⟨hlk, fun now2 => by simp [canGenerateAlert, hlk]⟩
  · intro hw fw hfail
    rw [checkAndGenerateAlerts_eq,
      checkFatigue_failed_write cfg sc _ e now fw hfail]
    rcases highStressPhase_cases cfg st e now
        ((getDetections store e (some (now - cfg.alertWindowMinutes * 60)) none 1000).filter
          isHighStress) hw with h1 | ⟨-, -, i, -, -, h1⟩ <;> rw [h1]
    exact lookupKey_setKey_ne st _ _ now (highStress_key_ne_fatigue_key _ _).symm
  · intro hw fw key hne
    rw [checkAndGenerateAlerts_eq] at hne ⊢
    rcases highStressPhase_cases cfg st e now
        ((getDetections store e (some (now - cfg.alertWindowMinutes * 60)) none 1000).filter
          isHighStress) hw with h1 | ⟨hth, hcan1, i, hhw, hi, h1⟩ <;> rw [h1] at hne ⊢
    · rcases checkFatigue_cases cfg sc st e now fw with h2 | ⟨hcan2, j, hfw, hj, h2⟩ <;>
        rw [h2] at hne ⊢
      · exact absurd rfl hne
      · by_cases hk : key = "fatigue_" ++ scopeSuffix e
        · subst hk
          exact ⟨lookupKey_setKey_self st _ now, Or.inr ⟨rfl, j, hfw, hj⟩⟩
        · rw [lookupKey_setKey_ne st _ key now hk] at hne
          exact absurd rfl hne
    · rcases checkFatigue_cases cfg sc (setKey st ("high_stress_" ++ scopeSuffix e) now)
          e now fw with h2 | ⟨hcan2, j, hfw, hj, h2⟩ <;> rw [h2] at hne ⊢
      · by_cases hk : key = "high_stress_" ++ scopeSuffix e
        · subst hk
          exact ⟨lookupKey_setKey_self st _ now, Or.inl ⟨rfl, i, hhw, hi⟩⟩
        · rw [lookupKey_setKey_ne st _ key now hk] at hne
          exact absurd rfl hne
      · by_cases hkf : key = "fatigue_" ++ scopeSuffix e
        · subst hkf
          exact ⟨lookupKey_setKey_self _ _ now, Or.inr ⟨rfl, j, hfw, hj⟩⟩
        · rw [lookupKey_setKey_ne _ _ key now hkf] at hne ⊢
          by_cases hk : key = "high_stress_" ++ scopeSuffix e
          · subst hk
            exact ⟨lookupKey_setKey_self st _ now, Or.inl ⟨rfl, i, hhw, hi⟩⟩
          · rw [lookupKey_setKey_ne st _ key now hk] at hne
            exact absurd rfl hne

theorem claim_C7_witness :
    (lookupKey (checkAndGenerateAlerts cexCfg [cexDetection] (StressCalc.init 100 30) [] none 0
        none (some 1)).2 ("high_stress_" ++ scopeSuffix none) =
      lookupKey [] ("high_stress_" ++ scopeSuffix none)) ∧
    (lookupKey (checkAndGenerateAlerts cexCfg [cexDetection] (StressCalc.init 100 30) [] none 0
        (some 1) none).2 ("fatigue_" ++ scopeSuffix none) =
      lookupKey [] ("fatigue_" ++ scopeSuffix none)) ∧
    (lookupKey (checkAndGenerateAlerts cexCfg [cexDetection] (StressCalc.init 100 30) [] none 0
        (some 1) (some 1)).2 ("high_stress_" ++ scopeSuffix none) = some 0 ∧
      (("high_stress_" ++ scopeSuffix none = "high_stress_" ++ scopeSuffix (none : Option String) ∧
          ∃ i, (some 1 : Option Nat) = some i ∧ i ≠ 0) ∨
       ("high_stress_" ++ scopeSuffix none = "fatigue_" ++ scopeSuffix (none : Option String) ∧
          ∃ j, (some 1 : Option Nat) = some j ∧ j ≠ 0))) := by
  refine ⟨?_, ?_, ?_⟩
  · exact ((claim_C7 cexCfg [cexDetection] (StressCalc.init 100 30) [] none 0).1
      (some 1) none (Or.inl rfl)).1
  · exact (claim_C7 cexCfg [cexDetection] (StressCalc.init 100 30) [] none 0).2.1
      (some 1) none (Or.inl rfl)
  · have hth : cexCfg.alertThreshold ≤
        ((getDetections [cexDetection] none (some ((0 : ℚ) - cexCfg.alertWindowMinutes * 60))
          none 1000).filter isHighStress).length := by
      rw [cexDetections_none]; simp [List.filter, cexDetection_highStress, cexCfg]
    have hf := checkAndGenerateAlerts_fires cexCfg [cexDetection] (StressCalc.init 100 30) []
      none 0 1 (some 1) (Or.inl rfl) hth one_ne_zero
    have hne : lookupKey (checkAndGenerateAlerts cexCfg [cexDetection]
        (StressCalc.init 100 30) [] none 0 (some 1) (some 1)).2
        ("high_stress_" ++ scopeSuffix none) ≠
        lookupKey [] ("high_stress_" ++ scopeSuffix none) := by
      rw [hf.2]; simp [lookupKey]
    exact (claim_C7 cexCfg [cexDetection] (StressCalc.init 100 30) [] none 0).2.2
      (some 1) (some 1) ("high_stress_" ++ scopeSuffix none) hne

/-! ## Claims about the face recognizer (C4, C8, C6) -/

/-- The running best of the comparison loop equals the maximum similarity
clipped below at the 0.0 it starts from. -/
theorem recognizeFold_snd_max (q : List ℚ) (R : List (String × List ℚ)) (m : ℝ)
    (hub : ∀ p ∈ R, cosineSimilarity q p.2 ≤ m)
    (hmem : ∃ p ∈ R, cosineSimilarity q p.2 = m) :
    (R.foldl (recognizeStep q) ((none : Option String), (0 : ℝ))).2 = max 0 m := by
  apply le_antisymm
  · rcases recognizeFold_eq_init_or_mem q R (none, 0) with h | ⟨p, hp, h⟩
    · rw [h]
      exact le_max_left 0 m
    · rw [h]
      exact le_trans (hub p hp) (le_max_right 0 m)
  · apply max_le
    · exact recognizeFold_snd_ge_init q R (none, 0)
    · obtain ⟨p, hp, hpm⟩ := hmem
      rw [← hpm]
      exact recognizeFold_snd_ge_mem q R (none, 0) p hp

/-- Below the threshold, recognize_face reports no match together with the
clipped maximum similarity. -/
theorem recognizeFace_below (t : ℝ) (R : List (String × List ℚ)) (q : List ℚ) (m : ℝ)
    (hR : R ≠ []) (hub : ∀ p ∈ R, cosineSimilarity q p.2 ≤ m)
    (hmem : ∃ p ∈ R, cosineSimilarity q p.2 = m) (hlt : max 0 m < t) :
    recognizeFace t R q = (none, max 0 m) := by
  have hempty : R.isEmpty = false := by
    cases R with
    | nil => exact absurd rfl hR
    | cons a as => rfl
  have hfold := recognizeFold_snd_max q R m hub hmem
  simp only [recognizeFace, hempty, Bool.false_eq_true, if_false]
  rw [if_neg (by rw [hfold]; exact not_le.mpr hlt)]
  rw [hfold]

/-- C4 (amended): against an empty registry match returns (none, 0.0); for a
positive threshold and nonempty registry with maximum similarity m, match
returns the first subject attaining m together with m when m reaches the
threshold, and otherwise (none, max 0 m) — the running best starts at 0.0
with a strict comparison, so a negative maximum is reported as 0.0 rather
than as the true maximum. -/
theorem claim_C4 :
    (∀ (t : ℝ) (q : List ℚ), recognizeFace t [] q = (none, 0)) ∧
    (∀ (t : ℝ) (R : List (String × List ℚ)) (q : List ℚ) (m : ℝ),
      0 < t → R ≠ [] →
      (∀ p ∈ R, cosineSimilarity q p.2 ≤ m) →
      (∃ p ∈ R, cosineSimilarity q p.2 = m) →
      (t ≤ m →
        ∃ s v, (s, v) ∈ R ∧ cosineSimilarity q v = m ∧
          recognizeFace t R q = (some s, m)) ∧
      (m < t → recognizeFace t R q = (none, max 0 m))) := by
  constructor
  · intro t q
    rfl
  · intro t R q m ht hR hub hmem
    have hempty : R.isEmpty = false := by
      cases R with
      | nil => exact absurd rfl hR
      | cons a as => rfl
    have hfold := recognizeFold_snd_max q R m hub hmem
    constructor
    · intro htm
      have hm0 : (0 : ℝ) < m := lt_of_lt_of_le ht htm
      have hmax : max 0 m = m := max_eq_right (le_of_lt hm0)
      rw [hmax] at hfold
      rcases recognizeFold_eq_init_or_mem q R ((none : Option String), (0 : ℝ)) with h | ⟨p, hp, h⟩
      · rw [h] at hfold
        exact absurd hfold.symm (ne_of_gt hm0)
      · have hpm : cosineSimilarity q p.2 = m := by
          rw [h] at hfold
          exact hfold
        refine ⟨p.1, p.2, hp, hpm, ?_⟩
        simp only [recognizeFace, hempty, Bool.false_eq_true, if_false]
        rw [if_pos (by rw [hfold]; exact htm)]
        rw [h, hpm]
    · intro hmt
      exact recognizeFace_below t R q m hR hub hmem (max_lt ht hmt)

theorem cosineSimilarity_one_one : cosineSimilarity [(1 : ℚ)] [1] = 1 :=
  cosineSimilarity_self [(1 : ℚ)] (by norm_num [dotList])

theorem cosineSimilarity_zero_zero : cosineSimilarity [(0 : ℚ)] [0] = 0 := by
  have hn : vecNorm [(0 : ℚ)] = 0 := by
    simp [vecNorm, dotList]
  simp [cosineSimilarity, hn]

theorem claim_C4_witness :
    (∃ s v, (s, v) ∈ [("A", [(1 : ℚ)])] ∧ cosineSimilarity [(1 : ℚ)] v = 1 ∧
      recognizeFace (7/10) [("A", [(1 : ℚ)])] [(1 : ℚ)] = (some s, 1)) ∧
    recognizeFace (7/10) [("B", [(0 : ℚ)])] [(1 : ℚ)] = (none, max 0 0) ∧
    recognizeFace (7/10) [] [(1 : ℚ)] = (none, 0) := by
  have hz : cosineSimilarity [(1 : ℚ)] [(0 : ℚ)] = 0 := by
    have hn : vecNorm [(0 : ℚ)] = 0 := by simp [vecNorm, dotList]
    simp [cosineSimilarity, hn]
  refine ⟨?_, ?_, claim_C4.1 (7/10) [(1 : ℚ)]⟩
  · exact (claim_C4.2 (7/10) [("A", [(1 : ℚ)])] [(1 : ℚ)] 1 (by norm_num) (by simp)
      (by intro p hp; simp only [List.mem_singleton] at hp; subst hp
          exact le_of_eq cosineSimilarity_one_one)
      ⟨("A", [(1 : ℚ)]), by simp, cosineSimilarity_one_one⟩).1 (by norm_num)
  · exact (claim_C4.2 (7/10) [("B", [(0 : ℚ)])] [(1 : ℚ)] 0 (by norm_num) (by simp)
      (by intro p hp; simp only [List.mem_singleton] at hp; subst hp
          exact le_of_eq hz)
      ⟨("B", [(0 : ℚ)]), by simp, hz⟩).2 (by norm_num)

/-- C4 counterexample against the claim as stated: with one enrolled vector
of cosine similarity -1 to the query, the maximum similarity is -1 and the
claim demands the result (none, -1), but the running best never drops below
its 0.0 start, so the code returns (none, 0.0). -/
theorem claim_C4_counterexample :
    cosineSimilarity [(-1 : ℚ)] [1] = -1 ∧
    recognizeFace (7/10) [("A", [(1 : ℚ)])] [(-1 : ℚ)] = (none, 0) ∧
    (0 : ℝ) ≠ -1 := by
  have hd1 : dotList [(-1 : ℚ)] [(-1 : ℚ)] = 1 := by norm_num [dotList]
  have hd2 : dotList [(1 : ℚ)] [(1 : ℚ)] = 1 := by norm_num [dotList]
  have hd12 : dotList [(-1 : ℚ)] [(1 : ℚ)] = -1 := by norm_num [dotList]
  have hn1 : vecNorm [(-1 : ℚ)] = 1 := by
    rw [vecNorm, hd1]
    norm_num [Real.sqrt_one]
  have hn2 : vecNorm [(1 : ℚ)] = 1 := by
    rw [vecNorm, hd2]
    norm_num [Real.sqrt_one]
  have hcos : cosineSimilarity [(-1 : ℚ)] [1] = -1 := by
    simp only [cosineSimilarity, hn1, hn2, hd12]
    norm_num
  refine ⟨hcos, ?_, by norm_num⟩
  simp only [recognizeFace, List.isEmpty_cons, Bool.false_eq_true, if_false,
    List.foldl_cons, List.foldl_nil, recognizeStep, hcos]
  norm_num

/-- C8 (amended): every enrolled vector of nonzero norm has self-similarity
1.0 and querying match with it returns a subject whenever threshold ≤ 1.0
(zero-norm vectors have self-similarity 0.0 by the zero-norm convention); a
query whose maximum similarity is nonnegative and strictly below the
threshold yields no-match reporting that maximum (a negative maximum is
reported as the 0.0 the running best starts from). -/
theorem claim_C8 :
    (∀ (v : List ℚ) (s : String) (R : List (String × List ℚ)) (t : ℝ),
      dotList v v ≠ 0 → t ≤ 1 → (s, v) ∈ R →
      cosineSimilarity v v = 1 ∧ (recognizeFace t R v).1 ≠ none) ∧
    (∀ (t : ℝ) (R : List (String × List ℚ)) (q : List ℚ) (m : ℝ),
      R ≠ [] →
      (∀ p ∈ R, cosineSimilarity q p.2 ≤ m) →
      (∃ p ∈ R, cosineSimilarity q p.2 = m) →
      0 ≤ m → m < t →
      recognizeFace t R q = (none, m)) := by
  constructor
  · intro v s R t hv ht hmem
    have hcos := cosineSimilarity_self v hv
    refine ⟨hcos, ?_⟩
    have hR : R ≠ [] := List.ne_nil_of_mem hmem
    have hempty : R.isEmpty = false := by
      cases R with
      | nil => exact absurd rfl hR
      | cons a as => rfl
    have hge : (1 : ℝ) ≤ (R.foldl (recognizeStep v) ((none : Option String), (0 : ℝ))).2 := by
      have := recognizeFold_snd_ge_mem v R ((none : Option String), (0 : ℝ)) (s, v) hmem
      rw [hcos] at this
      exact this
    rcases recognizeFold_eq_init_or_mem v R ((none : Option String), (0 : ℝ)) with h | ⟨p, hp, h⟩
    · rw [h] at hge
      norm_num at hge
    · simp only [recognizeFace, hempty, Bool.false_eq_true, if_false]
      rw [if_pos (le_trans ht hge)]
      rw [h]
      simp
  · intro t R q m hR hub hmem hm0 hmt
    have := recognizeFace_below t R q m hR hub hmem
      (by rw [max_eq_right hm0]; exact hmt)
    rw [max_eq_right hm0] at this
    exact this

theorem claim_C8_witness :
    (cosineSimilarity [(1 : ℚ)] [1] = 1 ∧
      (recognizeFace (7/10) [("A", [(1 : ℚ)])] [(1 : ℚ)]).1 ≠ none) ∧
    recognizeFace (9/10) [("B", [(1 : ℚ), 0])] [(0 : ℚ), 1] = (none, 0) := by
  constructor
  · exact claim_C8.1 [(1 : ℚ)] "A" [("A", [(1 : ℚ)])] (7/10) (by norm_num [dotList])
      (by norm_num) (by simp)
  · have hcos : cosineSimilarity [(0 : ℚ), 1] [(1 : ℚ), 0] = 0 := by
      have hdq : dotList [(0 : ℚ), 1] [(0 : ℚ), 1] = 1 := by norm_num [dotList]
      have hdv : dotList [(1 : ℚ), 0] [(1 : ℚ), 0] = 1 := by norm_num [dotList]
      have hd : dotList [(0 : ℚ), 1] [(1 : ℚ), 0] = 0 := by norm_num [dotList]
      have hn1 : vecNorm [(0 : ℚ), 1] = 1 := by
        rw [vecNorm, hdq]; norm_num [Real.sqrt_one]
      have hn2 : vecNorm [(1 : ℚ), 0] = 1 := by
        rw [vecNorm, hdv]; norm_num [Real.sqrt_one]
      simp only [cosineSimilarity, hn1, hn2, hd]
      norm_num
    exact claim_C8.2 (9/10) [("B", [(1 : ℚ), 0])] [(0 : ℚ), 1] 0 (by simp)
      (by intro p hp; simp only [List.mem_singleton] at hp; subst hp
          exact le_of_eq hcos)
      ⟨("B", [(1 : ℚ), 0]), by simp, hcos⟩ (le_refl 0) (by norm_num)

/-- C8 counterexample against the claim as stated: the zero vector can sit in
the registry (its JSON file only needs a non-empty list), its self-similarity
is 0.0, not 1.0, and matching it with threshold 0.7 ≤ 1 returns no subject;
and a query whose best similarity is negative (here -1) reports 0.0, not that
best similarity. -/
theorem claim_C8_counterexample :
    cosineSimilarity [(0 : ℚ)] [0] = 0 ∧
    (0 : ℝ) ≠ 1 ∧
    recognizeFace (7/10) [("A", [(0 : ℚ)])] [(0 : ℚ)] = (none, 0) ∧
    cosineSimilarity [(-2 : ℚ)] [2] = -1 ∧
    recognizeFace (7/10) [("B", [(2 : ℚ)])] [(-2 : ℚ)] = (none, 0) := by
  have hc0 := cosineSimilarity_zero_zero
  have hd4 : dotList [(-2 : ℚ)] [(-2 : ℚ)] = 4 := by norm_num [dotList]
  have hd4b : dotList [(2 : ℚ)] [(2 : ℚ)] = 4 := by norm_num [dotList]
  have hdm : dotList [(-2 : ℚ)] [(2 : ℚ)] = -4 := by norm_num [dotList]
  have hs4 : Real.sqrt 4 = 2 := by
    rw [show (4 : ℝ) = 2 ^ 2 by norm_num, Real.sqrt_sq (by norm_num : (0:ℝ) ≤ 2)]
  have hn1 : vecNorm [(-2 : ℚ)] = 2 := by
    rw [vecNorm, hd4]; norm_num [hs4]
  have hn2 : vecNorm [(2 : ℚ)] = 2 := by
    rw [vecNorm, hd4b]; norm_num [hs4]
  have hcm : cosineSimilarity [(-2 : ℚ)] [2] = -1 := by
    simp only [cosineSimilarity, hn1, hn2, hdm]
    norm_num
  refine ⟨hc0, by norm_num, ?_, hcm, ?_⟩
  · simp only [recognizeFace, List.isEmpty_cons, Bool.false_eq_true, if_false,
      List.foldl_cons, List.foldl_nil, recognizeStep, hc0]
    norm_num
  · simp only [recognizeFace, List.isEmpty_cons, Bool.false_eq_true, if_false,
      List.foldl_cons, List.foldl_nil, recognizeStep, hcm]
    norm_num

/-- C6: enroll is declined (false result) with the registry unchanged
whenever fewer than 3 valid embeddings were produced or the mean pairwise
quality is below 0.70; a reported success always stores the averaged vector
under the subject id, replacing any prior entry. -/
theorem claim_C6 (registry : List (String × List ℚ)) (employeeId : String)
    (embedResults : List (Option (List ℚ))) (saveOk : Bool) :
    ((embedResults.filterMap (fun x => x)).length < 3 →
      enrollEmployee registry employeeId embedResults saveOk = (false, registry)) ∧
    (enrollQuality (embedResults.filterMap (fun x => x)) < 7/10 →
      enrollEmployee registry employeeId embedResults saveOk = (false, registry)) ∧
    (3 ≤ (embedResults.filterMap (fun x => x)).length →
      ¬enrollQuality (embedResults.filterMap (fun x => x)) < 7/10 →
      saveOk = true →
      enrollEmployee registry employeeId embedResults saveOk =
        (true, setKey registry employeeId (avgVec (embedResults.filterMap (fun x => x))))) ∧
    ((enrollEmployee registry employeeId embedResults saveOk).1 = true →
      (enrollEmployee registry employeeId embedResults saveOk).2 =
        setKey registry employeeId (avgVec (embedResults.filterMap (fun x => x)))) := by
  refine ⟨?_, ?_, ?_, ?_⟩
  · intro h
    simp only [enrollEmployee]
    split_ifs <;> rfl
  · intro h
    simp only [enrollEmployee]
    split_ifs <;> rfl
  · intro h1 h2 h3
    subst h3
    have h0 : ¬embedResults.length < 3 :=
      fun hc => absurd (lt_of_le_of_lt (le_trans h1 (List.length_filterMap_le _ _)) hc)
        (lt_irrefl _)
    simp only [enrollEmployee]
    rw [if_neg h0, if_neg (by omega), if_neg h2, if_pos trivial]
  · intro h
    simp only [enrollEmployee] at h ⊢
    split_ifs at h ⊢
    rfl

theorem claim_C6_witness :
    enrollEmployee [] "E" [some [1], some [1], some [1]] true =
      (true, setKey [] "E"
        (avgVec (List.filterMap (fun x => x) [some [1], some [1], some [1]]))) ∧
    enrollEmployee [] "E" [some [(1 : ℚ)]] true = (false, []) := by
  constructor
  · have hfm : List.filterMap (fun x => x)
        ([some [1], some [1], some [1]] : List (Option (List ℚ))) =
        ([[1], [1], [1]] : List (List ℚ)) := rfl
    have hq : ¬enrollQuality (List.filterMap (fun x => x)
        ([some [1], some [1], some [1]] : List (Option (List ℚ)))) < 7/10 := by
      rw [hfm]
      simp only [enrollQuality, pairSims, List.map, cosineSimilarity_one_one]
      norm_num
    exact (claim_C6 [] "E" [some [1], some [1], some [1]] true).2.2.1 (by decide) hq rfl
  · exact (claim_C6 [] "E" [some [(1 : ℚ)]] true).1 (by decide)

end StressVision
